import Mathlib

/-!
Shallow embedding of the PDF/Image converter tool (repository
`PDF-Image-converter-tool`): the configuration resolver, the log
formatter, and the two converters, translated from the Python sources
`jpg2pdf.py` and `src/pdf_converter/...`.

The repository contains two parallel implementations of the same tool: the
monolithic `jpg2pdf.py` and the `src/pdf_converter` package.  The
configuration resolver is embedded from `jpg2pdf.py` (`ConfigLoader`),
which carries the full structural checks and the `ConfigError` type; the
package's `ConfigHandler` reaches the same fatal outcomes through
`sys.exit(1)` and differs only in the wording of the missing-key warning
and in the default directory pair (`assets/input` / `assets/output`
instead of `input` / `output`).  The converters are embedded from the
package (`core/image_to_pdf.py`, `core/pdf_extractor.py`); where the
monolith's executors differ observably (the skip log in
`_process_one_to_one`) both variants are embedded.
-/

/-- A value of the parsed configuration document: the shapes `tomllib.load`
can produce (strings, integers, booleans, tables, arrays), plus an explicit
`null` for the `settings_dict is None` check in `ConfigLoader.load` (the
spec treats the format as any self-describing key/value structure, so a
null is representable). -/
inductive Toml where
  | str (s : String)
  | int (n : Int)
  | bool (b : Bool)
  | null
  | table (kvs : List (String × Toml))
  | arr (xs : List Toml)

/-- A raw table of the document, as `tomllib` returns one: key/value pairs
with distinct keys (modelled as an association list, first match wins). -/
abbrev Tbl := List (String × Toml)

/-- Python dictionary lookup `data.get(key)` over the embedded table. -/
def Tbl.lookup? : Tbl → String → Option Toml
  | [], _ => none
  | (k, v) :: rest, key => if k = key then some v else Tbl.lookup? rest key

/-- Python truthiness of a raw value (used by `if not ws_str` and
`output_name or "merged.pdf"` in the sources). -/
def Toml.truthy : Toml → Bool
  | .str s => s != ""
  | .int n => n != 0
  | .bool b => b
  | .null => false
  | .table kvs => !kvs.isEmpty
  | .arr xs => !xs.isEmpty

/-- Python membership test `val in choices` where every call site passes a
list of strings: a non-string value is never equal to a string. -/
def tomlMem (v : Toml) (cs : List String) : Bool :=
  match v with
  | .str s => cs.contains s
  | _ => false

/-- Little-endian decimal digits of `n`, written with explicit fuel so the
kernel can evaluate it on literals; `natDigitsRev n n` agrees with
`Nat.digits 10 n` (proved below). -/
def natDigitsRev : Nat → Nat → List Nat
  | 0, _ => []
  | fuel + 1, n => if n = 0 then [] else n % 10 :: natDigitsRev fuel (n / 10)

/-- Decimal rendering of a natural number, the model of Python `str` on a
non-negative `int` (big-endian digits, no leading zeros, `0` renders as
`"0"`). -/
def pyNatStr (n : Nat) : String :=
  if n = 0 then "0" else (((natDigitsRev n n).map Nat.digitChar).reverse).asString

/-- Decimal rendering of an integer, the model of Python `str` on `int`. -/
def pyIntStr (i : Int) : String :=
  if i < 0 then "-" ++ pyNatStr i.natAbs else pyNatStr i.toNat

/-- Python `str` of a raw configuration value, as interpolated into the
resolver's log messages.  Structured values (tables, arrays) are rendered
with a placeholder: no theorem below depends on the textual rendering of a
structured value, only on the prefix of the whole message. -/
def pyStr : Toml → String
  | .str s => s
  | .int n => pyIntStr n
  | .bool b => cond b "True" "False"
  | .null => "None"
  | .table _ => "<table>"
  | .arr _ => "<array>"

/-- Python `str` of a list of strings, as `f"{choices}"` renders one:
`['a', 'b']`. -/
def pyStrList (cs : List String) : String :=
  "[" ++ String.intercalate ", " (cs.map (fun s => "'" ++ s ++ "'")) ++ "]"

/-- Log severities used by the tool (the handler in `logger_service.py`
prints INFO and above; DEBUG is never emitted by the code). -/
inductive LogLevel where
  | info
  | warning
  | error
deriving DecidableEq, Repr

/-- One record given to the logger: a level and the unformatted message. -/
structure LogEntry where
  level : LogLevel
  msg : String
deriving DecidableEq, Repr

/-- Boolean prefix test on character lists (model of `str.startswith`). -/
def listPre : List Char → List Char → Bool
  | [], _ => true
  | _ :: _, [] => false
  | c :: cs, d :: ds => c == d && listPre cs ds

/-- Model of Python `s.startswith(pre)`. -/
def strStartsWith (s pre : String) : Bool := listPre pre.data s.data

/-- ANSI color codes from `app_constants.LogColors`. -/
def LogColors.RESET : String := "\x1b[0m"

def LogColors.RED : String := "\x1b[31m"

def LogColors.YELLOW : String := "\x1b[33m"

def LogColors.BLUE : String := "\x1b[34m"

/-- `CustomFormatter.format` from `logger_service.py`: the colored,
level-tagged message (the emitted line prepends the UTC timestamp and
`" - "`, which carries no information about the record and is not
modelled).  Warnings whose message starts with `"[OPT]"` are colored blue,
other warnings yellow, errors red. -/
def CustomFormatter.format (e : LogEntry) : String :=
  match e.level with
  | .error => LogColors.RED ++ ("ERROR: " ++ e.msg) ++ LogColors.RESET
  | .warning =>
    if strStartsWith e.msg "[OPT]" then
      LogColors.BLUE ++ ("WARNING: " ++ e.msg) ++ LogColors.RESET
    else
      LogColors.YELLOW ++ ("WARNING: " ++ e.msg) ++ LogColors.RESET
  | .info => e.msg

/-- Outcome of a failed configuration load: a `ConfigError` (raised by the
loader and turned into `sys.exit(1)` by `main`), or an unhandled dynamic
error (`TypeError`/`AttributeError` from a value of an unexpected shape,
caught by `main`'s `except Exception` and also turned into `sys.exit(1)`). -/
inductive LoadErr where
  | configError (msg : String)
  | dynError
deriving DecidableEq, Repr

/-- `DirectoriesConfig` from `data_schemas.py`, with paths as strings. -/
structure DirectoriesConfig where
  work_space : String
  input_dir : String
  output_dir : String
deriving DecidableEq, Repr

/-- `AutoGroupingConfig`.  The dataclass does not enforce field types and
`_get_optional` returns present values unvalidated when it is called
without a choices list, so unvalidated fields keep the raw value. -/
structure AutoGroupingConfig where
  enable : Toml
  group_by : Toml
  max_images_per_pdf : Toml

/-- `PdfOutputStrategyConfig` from `data_schemas.py`. -/
structure PdfOutputStrategyConfig where
  mode : Toml
  output_name : Toml
  overwrite_existing : Toml
  auto_grouping : AutoGroupingConfig

/-- `ImageOutputConfig` from `data_schemas.py`. -/
structure ImageOutputConfig where
  image_format : Toml
  dpi : Toml
  color_mode : Toml
  overwrite_existing : Toml

/-- `ImageNamingConfig` from `data_schemas.py`. -/
structure ImageNamingConfig where
  page_naming : Toml
  start_index : Toml

/-- `ImageOutputStrategyConfig` from `data_schemas.py`. -/
structure ImageOutputStrategyConfig where
  mode : Toml
  output : ImageOutputConfig
  naming : ImageNamingConfig

/-- `AppSettings` from `data_schemas.py`: the resolved settings object. -/
structure AppSettings where
  work_mode : Toml
  directories : DirectoriesConfig
  pdf_strategy : PdfOutputStrategyConfig
  img_strategy : ImageOutputStrategyConfig

/-- The generic warning of `ConfigLoader._get_optional` for an absent
optional key. -/
def ConfigLoader.missingMsg (key : String) (dflt : Toml) : String :=
  "Optional config '" ++ key ++ "' missing. Using default: " ++ pyStr dflt

/-- The tagged warning of `ConfigLoader._get_optional` for a present key
whose value is outside the enumerated choices. -/
def ConfigLoader.invalidMsg (key : String) (val dflt : Toml) (choices : List String) : String :=
  "[OPT] Invalid option for '" ++ key ++ "': " ++ pyStr val ++ ". Expected " ++
    pyStrList choices ++ ". Ignoring and using default: " ++ pyStr dflt

/-- `ConfigLoader._get_optional`: absent key falls back to the default with
a generic warning; a present value outside a non-empty choices list falls
back with the `"[OPT]"`-tagged warning; otherwise the value is returned
unvalidated.  A `choices` of `[]` models Python's `choices=None` (and an
empty list, both falsy). -/
def ConfigLoader.getOptional (data : Tbl) (key : String) (dflt : Toml)
    (choices : List String) : Toml × List LogEntry :=
  match Tbl.lookup? data key with
  | none => (dflt, [⟨.warning, ConfigLoader.missingMsg key dflt⟩])
  | some val =>
    if choices ≠ [] ∧ tomlMem val choices = false then
      (dflt, [⟨.warning, ConfigLoader.invalidMsg key val dflt choices⟩])
    else (val, [])

/-- `ConfigLoader._get_required`: an absent key or a value outside the
choices raises `ConfigError`. -/
def ConfigLoader.getRequired (data : Tbl) (key : String)
    (choices : List String) : Except LoadErr Toml :=
  match Tbl.lookup? data key with
  | none => .error (.configError ("Missing required config key: '" ++ key ++ "'"))
  | some val =>
    if choices ≠ [] ∧ tomlMem val choices = false then
      .error (.configError ("Invalid value for '" ++ key ++ "': " ++ pyStr val ++
        ". Expected one of " ++ pyStrList choices))
    else .ok val

/-- One directory field of `ConfigLoader._parse_directories`: the three
`data.get(key, "")` blocks share this shape.  A falsy value (absent key,
empty string, any other falsy raw value) takes the default path with a
warning; a truthy string is used as given; a truthy non-string makes
`Path(value)` raise `TypeError` (unhandled, `dynError`). -/
def ConfigLoader.pathField (data : Tbl) (key : String) (dfltPath : String)
    (warnMsg : String) : Except LoadErr (String × List LogEntry) :=
  let v := (Tbl.lookup? data key).getD (.str "")
  if v.truthy then
    match v with
    | .str s => .ok (s, [])
    | _ => .error .dynError
  else .ok (dfltPath, [⟨.warning, warnMsg⟩])

/-- `ConfigLoader._parse_directories`.  A non-table `Directories` value
makes `data.get` raise `AttributeError` in Python (unhandled): modelled as
`dynError`. -/
def ConfigLoader.parseDirectories (d : Toml) (cwd : String) :
    Except LoadErr (DirectoriesConfig × List LogEntry) :=
  match d with
  | .table data => do
    let (ws, l1) ← ConfigLoader.pathField data "work_space" cwd
      "work_space not set. Using current directory."
    let (inp, l2) ← ConfigLoader.pathField data "input_dir" "input"
      "input_dir not set. Using 'input' in work_space."
    let (out, l3) ← ConfigLoader.pathField data "output_dir" "output"
      "output_dir not set. Using 'output' in work_space."
    return (⟨ws, inp, out⟩, l1 ++ l2 ++ l3)
  | _ => .error .dynError

/-- `ConfigLoader._parse_pdf_strategy`.  Sub-tables of an unexpected shape
ultimately raise in Python (`.get` on a non-dict): modelled as `dynError`. -/
def ConfigLoader.parsePdfStrategy (d : Toml) :
    Except LoadErr (PdfOutputStrategyConfig × List LogEntry) :=
  match d with
  | .table data =>
    let (mode, l1) := ConfigLoader.getOptional data "mode" (.str "many_to_one")
      ["many_to_one", "one_to_one", "auto_grouping"]
    let (outName, l2) := ConfigLoader.getOptional data "output_name" (.str "merged.pdf") []
    let (ow, l3) := ConfigLoader.getOptional data "overwrite_existing" (.bool false) []
    match (Tbl.lookup? data "AutoGrouping").getD (.table []) with
    | .table agData =>
      let (en, l4) := ConfigLoader.getOptional agData "enable" (.bool false) []
      let (gb, l5) := ConfigLoader.getOptional agData "group_by" (.str "none")
        ["none", "prefix", "directory", "metadata"]
      let (mx, l6) := ConfigLoader.getOptional agData "max_images_per_pdf" (.int 0) []
      .ok (⟨mode, outName, ow, ⟨en, gb, mx⟩⟩, l1 ++ l2 ++ l3 ++ l4 ++ l5 ++ l6)
    | _ => .error .dynError
  | _ => .error .dynError

/-- `ConfigLoader._parse_img_strategy`. -/
def ConfigLoader.parseImgStrategy (d : Toml) :
    Except LoadErr (ImageOutputStrategyConfig × List LogEntry) :=
  match d with
  | .table data =>
    let (mode, l1) := ConfigLoader.getOptional data "mode" (.str "one_to_one") ["one_to_one"]
    match (Tbl.lookup? data "Output").getD (.table []) with
    | .table outData =>
      let (fmt, l2) := ConfigLoader.getOptional outData "image_format" (.str "png")
        ["png", "jpg", "jpeg", "webp"]
      let (dpi, l3) := ConfigLoader.getOptional outData "dpi" (.int 300) []
      let (cm, l4) := ConfigLoader.getOptional outData "color_mode" (.str "rgb")
        ["rgb", "grayscale"]
      let (ow, l5) := ConfigLoader.getOptional outData "overwrite_existing" (.bool false) []
      match (Tbl.lookup? data "Naming").getD (.table []) with
      | .table nameData =>
        let (pn, l6) := ConfigLoader.getOptional nameData "page_naming" (.str "page_index")
          ["page_index", "original", "custom"]
        let (si, l7) := ConfigLoader.getOptional nameData "start_index" (.int 1) []
        .ok (⟨mode, ⟨fmt, dpi, cm, ow⟩, ⟨pn, si⟩⟩, l1 ++ l2 ++ l3 ++ l4 ++ l5 ++ l6 ++ l7)
      | _ => .error .dynError
    | _ => .error .dynError
  | _ => .error .dynError

/-- `ConfigLoader.load` from `jpg2pdf.py`, minus the file I/O: `parsed` is
the outcome of `tomllib.load` (`none` models a missing file or a document
that cannot be parsed, both of which raise `ConfigError`); `cwd` is
`os.getcwd()`.  The structural checks on the `Settings` section and the
required `work_mode` key precede every optional field. -/
def ConfigLoader.load (parsed : Option Tbl) (cwd : String) :
    Except LoadErr (AppSettings × List LogEntry) :=
  match parsed with
  | none => .error (.configError "Invalid TOML format")
  | some raw =>
    match Tbl.lookup? raw "Settings" with
    | none => .error (.configError "Missing [Settings] section in config.")
    | some .null =>
      .error (.configError "[Settings] section is explicitly set to null/empty in config.")
    | some (.table settings) => do
      let wm ← ConfigLoader.getRequired settings "work_mode" ["img2pdf", "pdf2img"]
      let (dirs, ld) ← ConfigLoader.parseDirectories
        ((Tbl.lookup? settings "Directories").getD (.table [])) cwd
      let (ps, lp) ← ConfigLoader.parsePdfStrategy
        ((Tbl.lookup? settings "PdfOutputStrategy").getD (.table []))
      let (ims, li) ← ConfigLoader.parseImgStrategy
        ((Tbl.lookup? settings "ImageOutputStrategy").getD (.table []))
      return (⟨wm, dirs, ps, ims⟩, ld ++ lp ++ li)
    | some _ => .error (.configError "[Settings] must be a table (dictionary).")

/-- Index of the last occurrence of `c` in the list, counting from `start`
(helper for the `name.rfind('.')` calls in `pathlib` and `os.path`). -/
def lastIdxFrom (c : Char) : List Char → Nat → Option Nat
  | [], _ => none
  | x :: xs, i =>
    match lastIdxFrom c xs (i + 1) with
    | some j => some j
    | none => if x == c then some i else none

/-- `pathlib.PurePath.suffix` for a bare file name: the part from the last
dot on, empty when the last dot is the first character (a hidden file) or
the final character. -/
def pySuffix (name : String) : String :=
  let cs := name.data
  match lastIdxFrom '.' cs 0 with
  | some i => if 0 < i ∧ i < cs.length - 1 then ⟨cs.drop i⟩ else ""
  | none => ""

/-- `pathlib.PurePath.stem` for a bare file name: the name without its
`pySuffix`. -/
def pyStem (name : String) : String :=
  let cs := name.data
  match lastIdxFrom '.' cs 0 with
  | some i => if 0 < i ∧ i < cs.length - 1 then ⟨cs.take i⟩ else name
  | none => name

/-- `os.path.splitext` for a bare file name (no directory separators): the
split is at the last dot, unless every character before it is a dot
(leading dots do not open an extension). -/
def pySplitext (p : String) : String × String :=
  let cs := p.data
  match lastIdxFrom '.' cs 0 with
  | some i =>
    if (cs.take i).any (fun c => c != '.') then (⟨cs.take i⟩, ⟨cs.drop i⟩) else (p, "")
  | none => (p, "")

/-- Python `str.lower()` (the names compared by the tool are ASCII). -/
def pyLower (s : String) : String := ⟨s.data.map Char.toLower⟩

/-- POSIX path join `a / b` of `pathlib` for the path strings the tool
builds (used in log text and for created-directory names). -/
def pyJoin (a b : String) : String :=
  if strStartsWith b "/" then b else if a = "" then b else a ++ "/" ++ b

/-- `IMG_EXTENSIONS` from `utils/app_constants.py` (a set in the source;
membership is all that is used). -/
def IMG_EXTENSIONS : List String := [".jpg", ".jpeg", ".png", ".webp", ".bmp"]

/-- A string of `k` zeros (helper for Python `f"{idx:03d}"`). -/
def padZeros (k : Nat) : String := ⟨List.replicate k '0'⟩

/-- Python `f"{idx:03d}"`: the decimal rendering zero-padded to width 3,
the sign counting toward the width (`f"{-1:03d}" == "-01"`). -/
def pad3 (idx : Int) : String :=
  if idx < 0 then
    let ds := pyNatStr idx.natAbs
    "-" ++ padZeros (2 - ds.length) ++ ds
  else
    let ds := pyNatStr idx.toNat
    padZeros (3 - ds.length) ++ ds

/-- One entry of a directory listing as `glob` yields it: a name and
whether it is a regular file (`is_file()`). -/
structure FileEntry where
  name : String
  isFile : Bool
deriving DecidableEq, Repr

/-- Contents of a file the image-to-PDF converter wrote: the merged PDF of
a list of images (`img2pdf.convert(img_paths)`), the PDF of one image, or
the empty file left behind when `open(path, "wb")` has already truncated
the target and `img2pdf.convert` then raises. -/
inductive PdfContent where
  | merged (imgs : List String)
  | single (img : String)
  | emptyFile
deriving DecidableEq, Repr

/-- First-match association-list lookup (the directories here have
distinct entry names). -/
def alistGet {β : Type} : List (String × β) → String → Option β
  | [], _ => none
  | (k, v) :: rest, key => if k = key then some v else alistGet rest key

/-- Whether a key is present (`Path.exists()` on a name in a directory). -/
def alistHas {β : Type} (l : List (String × β)) (key : String) : Bool :=
  (alistGet l key).isSome

/-- Write through a key: replace the first binding or append a new one
(the filesystem's overwrite-or-create). -/
def alistSet {β : Type} : List (String × β) → String → β → List (String × β)
  | [], key, v => [(key, v)]
  | (k, w) :: rest, key, v =>
    if k = key then (k, v) :: rest else (k, w) :: alistSet rest key v

/-- State of the filesystem as the image-to-PDF converter sees it: whether
the input directory exists, its listing, whether the output directory
exists, and the output directory's files with their contents. -/
structure ImgWorld where
  inputExists : Bool
  listing : List FileEntry
  outExists : Bool
  outFiles : List (String × PdfContent)

/-- Result of one `_process_*` call of the image-to-PDF converter: the
output directory's files afterwards, the log entries emitted, and the
names of files written (opened for writing), in order. -/
structure ProcResult where
  outFiles : List (String × PdfContent)
  logs : List LogEntry
  writes : List String

/-- Result of `run()`: the world afterwards, logs, files written, and the
directories created. -/
structure ImgRunResult where
  world : ImgWorld
  logs : List LogEntry
  writes : List String
  dirsCreated : List String

/-- The typed view of `pdf_strategy` that the executors read (the claims
below always run the converters on settings whose fields have the types
the code expects; `ag_*` mirror the `AutoGrouping` sub-config, which the
executors never read). -/
structure PdfStratC where
  mode : String
  output_name : String
  overwrite_existing : Bool
  ag_enable : Bool
  ag_group_by : String
  ag_max : Int
deriving DecidableEq, Repr

/-- The typed view of `img_strategy` that the PDF extractor reads. -/
structure ImgStratC where
  mode : String
  image_format : String
  dpi : Int
  color_mode : String
  overwrite_existing : Bool
  page_naming : String
  start_index : Int
deriving DecidableEq, Repr

/-- Lexicographic comparison of character lists by code point: the order
Python uses when sorting the path strings of one directory. -/
def listLeChars : List Char → List Char → Bool
  | [], _ => true
  | _ :: _, [] => false
  | c :: cs, d :: ds =>
    if c < d then true
    else if d < c then false
    else listLeChars cs ds

/-- `a <= b` on strings as Python compares them (`sorted` over the paths
of one directory); proved below to agree with the standard string order. -/
def strLe (a b : String) : Bool := listLeChars a.data b.data

/-- The image selection of `ImageToPdfConverter.run`: the regular files of
the (non-recursive) input listing whose lower-cased extension is in
`IMG_EXTENSIONS`, sorted ascending by name (`sorted` over paths of one
directory compares their names). -/
def listImages (listing : List FileEntry) : List String :=
  List.insertionSort (fun a b => strLe a b = true)
    ((listing.filter
      (fun e => IMG_EXTENSIONS.contains (pyLower (pySuffix e.name)) && e.isFile)).map
      (fun e => e.name))

/-- The effective many-to-one output name,
`self.cfg.pdf_strategy.output_name or "merged.pdf"`. -/
def m2oOutputName (cfg : PdfStratC) : String :=
  if cfg.output_name = "" then "merged.pdf" else cfg.output_name

/-- The collision-renamed many-to-one output name: `os.path.splitext` of
the output name with `_<timestamp>` inserted before the extension. -/
def m2oRenamedName (cfg : PdfStratC) (ts : Nat) : String :=
  (pySplitext (m2oOutputName cfg)).1 ++ "_" ++ pyNatStr ts ++ (pySplitext (m2oOutputName cfg)).2

/-- `ImageToPdfConverter._process_many_to_one` from `core/image_to_pdf.py`.
`ts` is `int(datetime.datetime.now().timestamp())` (non-negative on a real
clock); `convertOk` is whether `img2pdf.convert` succeeds (its failure
leaves the already-truncated target empty and logs an error, caught in the
method).  The exception text of a failure is opaque and rendered as a
placeholder. -/
def ImageToPdfConverter.processManyToOne (cfg : PdfStratC) (outDir : String) (ts : Nat)
    (convertOk : Bool) (imgs : List String) (fs : List (String × PdfContent)) : ProcResult :=
  let renamed :=
    if alistHas fs (m2oOutputName cfg) && !cfg.overwrite_existing then
      (m2oRenamedName cfg ts,
       [(⟨.warning, "Output file exists. Renaming to " ++ m2oRenamedName cfg ts⟩ : LogEntry)])
    else (m2oOutputName cfg, [])
  if convertOk then
    ⟨alistSet fs renamed.1 (.merged imgs),
     renamed.2 ++ [⟨.info, "Successfully merged " ++ pyNatStr imgs.length ++ " images -> " ++
       pyJoin outDir renamed.1⟩],
     [renamed.1]⟩
  else
    ⟨alistSet fs renamed.1 .emptyFile,
     renamed.2 ++ [⟨.error, "Failed to merge images: <exception>"⟩],
     [renamed.1]⟩

/-- `ImageToPdfConverter._process_one_to_one` from `core/image_to_pdf.py`:
a colliding target with overwrite off is skipped silently (`continue`
without a log — the monolith's variant below differs here); `convertOne`
tells whether `img2pdf.convert` succeeds on one image. -/
def ImageToPdfConverter.processOneToOne (cfg : PdfStratC) (convertOne : String → Bool) :
    List String → List (String × PdfContent) → ProcResult
  | [], fs => ⟨fs, [], []⟩
  | img :: rest, fs =>
    let outputName := pyStem img ++ ".pdf"
    if alistHas fs outputName && !cfg.overwrite_existing then
      ImageToPdfConverter.processOneToOne cfg convertOne rest fs
    else
      let step :=
        if convertOne img then
          (alistSet fs outputName (.single img),
           (⟨.info, "Converted " ++ img ++ " -> " ++ outputName⟩ : LogEntry))
        else
          (alistSet fs outputName .emptyFile,
           (⟨.error, "Failed to convert " ++ img ++ ": <exception>"⟩ : LogEntry))
      let r := ImageToPdfConverter.processOneToOne cfg convertOne rest step.1
      ⟨r.outFiles, step.2 :: r.logs, outputName :: r.writes⟩

/-- `Img2PdfExecutor._process_one_to_one` from `jpg2pdf.py`: identical to
the package variant except that a skipped item logs
`"Skipping {output_path} (exists)"` at info level. -/
def Img2PdfExecutor.processOneToOne (cfg : PdfStratC) (outDir : String)
    (convertOne : String → Bool) : List String → List (String × PdfContent) → ProcResult
  | [], fs => ⟨fs, [], []⟩
  | img :: rest, fs =>
    let outputName := pyStem img ++ ".pdf"
    if alistHas fs outputName && !cfg.overwrite_existing then
      let r := Img2PdfExecutor.processOneToOne cfg outDir convertOne rest fs
      ⟨r.outFiles, ⟨.info, "Skipping " ++ pyJoin outDir outputName ++ " (exists)"⟩ :: r.logs,
       r.writes⟩
    else
      let step :=
        if convertOne img then
          (alistSet fs outputName (.single img),
           (⟨.info, "Converted " ++ img ++ " -> " ++ outputName⟩ : LogEntry))
        else
          (alistSet fs outputName .emptyFile,
           (⟨.error, "Failed to convert " ++ img ++ ": <exception>"⟩ : LogEntry))
      let r := Img2PdfExecutor.processOneToOne cfg outDir convertOne rest step.1
      ⟨r.outFiles, step.2 :: r.logs, outputName :: r.writes⟩

/-- `ImageToPdfConverter.run` from `core/image_to_pdf.py`: precondition
check on the input directory, `mkdir` of the output directory, image
listing, then dispatch on `pdf_strategy.mode` (any mode other than the two
implemented ones — only `"auto_grouping"` can be resolved — falls back to
many-to-one with an `"[OPT]"` warning). -/
def ImageToPdfConverter.run (cfg : PdfStratC) (inDir outDir : String) (ts : Nat)
    (convertOk : Bool) (convertOne : String → Bool) (w : ImgWorld) : ImgRunResult :=
  let start : LogEntry := ⟨.info, "Starting ImageToPdfConverter in " ++ inDir⟩
  if !w.inputExists then
    ⟨w, [start, ⟨.error, "Input directory does not exist: " ++ inDir⟩], [], []⟩
  else
    let dirsC := if w.outExists then [] else [outDir]
    let w1 : ImgWorld := { w with outExists := true }
    let images := listImages w.listing
    if images.isEmpty then
      ⟨w1, [start, ⟨.warning, "No images found in " ++ inDir⟩], [], dirsC⟩
    else if cfg.mode = "many_to_one" then
      let r := ImageToPdfConverter.processManyToOne cfg outDir ts convertOk images w1.outFiles
      ⟨{ w1 with outFiles := r.outFiles }, start :: r.logs, r.writes, dirsC⟩
    else if cfg.mode = "one_to_one" then
      let r := ImageToPdfConverter.processOneToOne cfg convertOne images w1.outFiles
      ⟨{ w1 with outFiles := r.outFiles }, start :: r.logs, r.writes, dirsC⟩
    else
      let r := ImageToPdfConverter.processManyToOne cfg outDir ts convertOk images w1.outFiles
      ⟨{ w1 with outFiles := r.outFiles },
       start :: ⟨.warning, "[OPT] Mode '" ++ cfg.mode ++
         "' not fully implemented. Falling back to many_to_one."⟩ :: r.logs,
       r.writes, dirsC⟩

/-- State of the filesystem as the PDF extractor sees it: the input
directory, and the output directory's per-PDF subdirectories with the
image files inside each. -/
structure PdfWorld where
  inputExists : Bool
  listing : List FileEntry
  outExists : Bool
  subdirs : List (String × List String)

/-- Result of `PDFExtractor._process_pdf` (and of the batch loop): the
subdirectories afterwards, logs, page files written, and subdirectories
created. -/
structure PdfProcResult where
  subdirs : List (String × List String)
  logs : List LogEntry
  writes : List String
  dirsCreated : List String

/-- Result of a page-saving loop inside one PDF's subdirectory. -/
structure SaveResult where
  files : List String
  logs : List LogEntry
  writes : List String

/-- Result of `PDFExtractor.run`. -/
structure PdfRunResult where
  world : PdfWorld
  logs : List LogEntry
  writes : List String
  dirsCreated : List String

/-- The PDF selection of `PDFExtractor.run`: regular files matching
`*.pdf` (non-recursive), sorted ascending by name. -/
def listPdfs (listing : List FileEntry) : List String :=
  List.insertionSort (fun a b => strLe a b = true)
    ((listing.filter
      (fun e => listPre ".pdf".data.reverse e.name.data.reverse && e.isFile)).map
      (fun e => e.name))

/-- The page file name chosen by `PDFExtractor._process_pdf`: any naming
mode other than `"original"` (in particular `"page_index"` and the
unimplemented `"custom"`) uses the `page_NNN` pattern. -/
def PDFExtractor.pageFileName (cfg : ImgStratC) (stem : String) (idx : Int) : String :=
  if cfg.page_naming != "original" then "page_" ++ pad3 idx ++ "." ++ cfg.image_format
  else stem ++ "_page_" ++ pad3 idx ++ "." ++ cfg.image_format

/-- The page loop of `PDFExtractor._process_pdf` over the 0-based page
positions: page `i` is named with index `start_index + i`; an existing
target with overwrite off is skipped (silently in this package variant);
otherwise the page is saved and logged. -/
def PDFExtractor.savePages (cfg : ImgStratC) (stem : String) :
    List Nat → List String → SaveResult
  | [], files => ⟨files, [], []⟩
  | i :: rest, files =>
    let fname := PDFExtractor.pageFileName cfg stem (cfg.start_index + (i : Int))
    if files.contains fname && !cfg.overwrite_existing then
      PDFExtractor.savePages cfg stem rest files
    else
      let files1 := if files.contains fname then files else files ++ [fname]
      let r := PDFExtractor.savePages cfg stem rest files1
      ⟨r.files, ⟨.info, "  Saved " ++ fname⟩ :: r.logs, fname :: r.writes⟩

/-- `PDFExtractor._process_pdf` from `core/pdf_extractor.py`: the per-PDF
subdirectory is created (`mkdir(exist_ok=True)`) before rasterization is
attempted; `pages` is the outcome of `convert_from_path` (`none` models a
raised exception — corrupt file, codec error — whose text is opaque), and
the whole body is wrapped in one try/except that logs an error. -/
def PDFExtractor.processPdf (cfg : ImgStratC) (outDir pdfName : String)
    (pages : Option Nat) (subdirs : List (String × List String)) : PdfProcResult :=
  let stem := pyStem pdfName
  let infoLog : LogEntry := ⟨.info, "Extracting PDF: " ++ pdfName⟩
  let fresh := !alistHas subdirs stem
  let subdirs1 := if alistHas subdirs stem then subdirs else subdirs ++ [(stem, [])]
  let dirsC := if fresh then [pyJoin outDir stem] else []
  match pages with
  | none =>
    ⟨subdirs1, [infoLog, ⟨.error, "Failed to extract PDF " ++ pdfName ++ ": <exception>"⟩],
     [], dirsC⟩
  | some n =>
    let r := PDFExtractor.savePages cfg stem (List.range n) ((alistGet subdirs1 stem).getD [])
    ⟨alistSet subdirs1 stem r.files, infoLog :: r.logs, r.writes, dirsC⟩

/-- The batch loop of `PDFExtractor.run` over the sorted PDF list. -/
def PDFExtractor.runPdfs (cfg : ImgStratC) (outDir : String) (pages : String → Option Nat) :
    List String → List (String × List String) → PdfProcResult
  | [], sd => ⟨sd, [], [], []⟩
  | p :: rest, sd =>
    let r := PDFExtractor.processPdf cfg outDir p (pages p) sd
    let r2 := PDFExtractor.runPdfs cfg outDir pages rest r.subdirs
    ⟨r2.subdirs, r.logs ++ r2.logs, r.writes ++ r2.writes, r.dirsCreated ++ r2.dirsCreated⟩

/-- `PDFExtractor.run` from `core/pdf_extractor.py`. -/
def PDFExtractor.run (cfg : ImgStratC) (inDir outDir : String)
    (pages : String → Option Nat) (w : PdfWorld) : PdfRunResult :=
  let start : LogEntry := ⟨.info, "Starting PDF Extractor in " ++ inDir⟩
  if !w.inputExists then
    ⟨w, [start, ⟨.error, "Input directory does not exist: " ++ inDir⟩], [], []⟩
  else
    let dirsC := if w.outExists then [] else [outDir]
    let w1 : PdfWorld := { w with outExists := true }
    let pdfs := listPdfs w.listing
    if pdfs.isEmpty then
      ⟨w1, [start, ⟨.warning, "No PDFs found in " ++ inDir⟩], [], dirsC⟩
    else
      let r := PDFExtractor.runPdfs cfg outDir pages pdfs w1.subdirs
      ⟨{ w1 with subdirs := r.subdirs }, start :: r.logs, r.writes, dirsC ++ r.dirsCreated⟩

/-- The typed view of a resolved `pdf_strategy`, when every field carries
the type the executors expect (which the resolver's defaults always do). -/
def asTypedPdfStrat : PdfOutputStrategyConfig → Option PdfStratC
  | ⟨.str mode, .str outName, .bool ow, ⟨.bool en, .str gb, .int mx⟩⟩ =>
    some ⟨mode, outName, ow, en, gb, mx⟩
  | _ => none

/-- The typed view of a resolved `img_strategy`. -/
def asTypedImgStrat : ImageOutputStrategyConfig → Option ImgStratC
  | ⟨.str mode, ⟨.str fmt, .int dpi, .str cm, .bool ow⟩, ⟨.str pn, .int si⟩⟩ =>
    some ⟨mode, fmt, dpi, cm, ow, pn, si⟩
  | _ => none

/-- The runtime environment of one invocation: the filesystem as each
converter would see it, the wall-clock timestamp, and the outcomes of the
external codec calls (opaque collaborators). -/
structure Env where
  imgW : ImgWorld
  pdfW : PdfWorld
  ts : Nat
  mergeOk : Bool
  convertOne : String → Bool
  pages : String → Option Nat

/-- Observable outcome of the whole process: exit code, files written,
directories created, and the final filesystem state. -/
structure MainOut where
  exitCode : Nat
  writes : List String
  dirsCreated : List String
  imgW : ImgWorld
  pdfW : PdfWorld

/-- `main` from `jpg2pdf.py` (and equivalently `bootstrap` → `engine` in
the package): a failed load — `ConfigError` or any other exception — is
caught and turns into `sys.exit(1)` before any converter is constructed;
a successful load dispatches on `work_mode` and exits 0.  Settings whose
raw field values do not have the types the executors expect make Python
raise inside `executor.run()` at a point that depends on the values; no
claim below reaches that branch, and it is modelled as an aborted run
with no recorded effects. -/
def appMain (parsed : Option Tbl) (cwd : String) (env : Env) : MainOut :=
  match ConfigLoader.load parsed cwd with
  | .error _ => ⟨1, [], [], env.imgW, env.pdfW⟩
  | .ok (settings, _) =>
    match asTypedPdfStrat settings.pdf_strategy, asTypedImgStrat settings.img_strategy with
    | some ps, some ims =>
      let inDir := pyJoin settings.directories.work_space settings.directories.input_dir
      let outDir := pyJoin settings.directories.work_space settings.directories.output_dir
      match settings.work_mode with
      | .str "img2pdf" =>
        let r := ImageToPdfConverter.run ps inDir outDir env.ts env.mergeOk env.convertOne env.imgW
        ⟨0, r.writes, r.dirsCreated, r.world, env.pdfW⟩
      | .str "pdf2img" =>
        let r := PDFExtractor.run ims inDir outDir env.pages env.pdfW
        ⟨0, r.writes, r.dirsCreated, env.imgW, r.world⟩
      | _ => ⟨0, [], [], env.imgW, env.pdfW⟩
    | _, _ => ⟨1, [], [], env.imgW, env.pdfW⟩

/-! ### Auxiliary lemmas about the embedded primitives -/

theorem strData_append (s t : String) : (s ++ t).data = s.data ++ t.data := rfl

theorem padZeros_data (k : Nat) : (padZeros k).data = List.replicate k '0' := rfl

theorem listPre_self_append (l m : List Char) : listPre l (l ++ m) = true := by
  induction l with
  | nil => rfl
  | cons c cs ih => simp [listPre, ih]

theorem strStartsWith_append_self (a b : String) : strStartsWith (a ++ b) a = true := by
  simpa [strStartsWith, strData_append] using listPre_self_append a.data b.data

theorem listLeChars_iff_not_lex : ∀ (xs ys : List Char),
    listLeChars xs ys = true ↔ ¬ List.Lex (· < ·) ys xs := by
  intro xs
  induction xs with
  | nil =>
    intro ys
    exact iff_of_true rfl (List.Lex.not_nil_right _ _)
  | cons c cs ih =>
    intro ys
    cases ys with
    | nil =>
      apply iff_of_false
      · simp [listLeChars]
      · intro h
        exact h List.Lex.nil
    | cons d ds =>
      by_cases hcd : c < d
      · apply iff_of_true
        · simp [listLeChars, hcd]
        · intro h
          cases h with
          | cons h2 => exact lt_irrefl c hcd
          | rel h2 => exact lt_asymm hcd h2
      · by_cases hdc : d < c
        · apply iff_of_false
          · simp [listLeChars, hcd, hdc]
          · intro h
            exact h (List.Lex.rel hdc)
        · have heq : c = d := le_antisymm (not_lt.mp hdc) (not_lt.mp hcd)
          subst heq
          simp only [listLeChars, lt_irrefl, if_false]
          rw [ih ds]
          exact not_congr List.Lex.cons_iff.symm

theorem strLe_iff (a b : String) : strLe a b = true ↔ a ≤ b := by
  rw [String.le_iff_toList_le, ← not_lt]
  show listLeChars a.data b.data = true ↔ ¬ List.Lex (· < ·) b.data a.data
  exact listLeChars_iff_not_lex a.data b.data

theorem digitChar_inj_lt : ∀ a < 10, ∀ b < 10, Nat.digitChar a = Nat.digitChar b → a = b := by
  decide

theorem digitChar_ne_zero_char : ∀ b < 10, b ≠ 0 → Nat.digitChar b ≠ '0' := by decide

theorem digitChar_ne_dash : ∀ d < 10, Nat.digitChar d ≠ '-' := by decide

theorem map_digitChar_inj : ∀ (l1 l2 : List Nat), (∀ d ∈ l1, d < 10) → (∀ d ∈ l2, d < 10) →
    l1.map Nat.digitChar = l2.map Nat.digitChar → l1 = l2 := by
  intro l1
  induction l1 with
  | nil =>
    intro l2 _ _ h
    cases l2 with
    | nil => rfl
    | cons b bs => simp at h
  | cons a as ih =>
    intro l2 h1 h2 h
    cases l2 with
    | nil => simp at h
    | cons b bs =>
      simp only [List.map_cons, List.cons.injEq] at h
      have hab : a = b := digitChar_inj_lt a (h1 a (by simp)) b (h2 b (by simp)) h.1
      have htl : as = bs :=
        ih bs (fun d hd => h1 d (by simp [hd])) (fun d hd => h2 d (by simp [hd])) h.2
      rw [hab, htl]

theorem pyNatStr_zero : (pyNatStr 0).data = ['0'] := rfl

theorem natDigitsRev_eq : ∀ (fuel n : Nat), n ≤ fuel → natDigitsRev fuel n = Nat.digits 10 n := by
  intro fuel
  induction fuel with
  | zero =>
    intro n h
    have hn : n = 0 := by omega
    subst hn
    simp [natDigitsRev]
  | succ fuel ih =>
    intro n h
    by_cases hn : n = 0
    · subst hn
      simp [natDigitsRev]
    · have hdiv : n / 10 < n := Nat.div_lt_self (Nat.pos_of_ne_zero hn) (by norm_num)
      rw [natDigitsRev, if_neg hn, ih (n / 10) (by omega),
        Nat.digits_def' (by norm_num : (1 : ℕ) < 10) (Nat.pos_of_ne_zero hn)]

theorem pyNatStr_data_of_ne_zero {n : Nat} (hn : n ≠ 0) :
    (pyNatStr n).data = ((Nat.digits 10 n).map Nat.digitChar).reverse := by
  unfold pyNatStr
  rw [if_neg hn]
  show ((natDigitsRev n n).map Nat.digitChar).reverse = _
  rw [natDigitsRev_eq n n le_rfl]

theorem pyNatStr_data_ne_nil (n : Nat) : (pyNatStr n).data ≠ [] := by
  by_cases hn : n = 0
  · subst hn; simp [pyNatStr_zero]
  · rw [pyNatStr_data_of_ne_zero hn]
    simp [Nat.digits_ne_nil_iff_ne_zero.mpr hn]

theorem pyNatStr_head {n : Nat} (hn : n ≠ 0) :
    ∃ c cs, (pyNatStr n).data = c :: cs ∧ c ≠ '0' := by
  rcases (Nat.digits 10 n).eq_nil_or_concat' with hnil | ⟨L, b, hLb⟩
  · exact absurd hnil (Nat.digits_ne_nil_iff_ne_zero.mpr hn)
  · have hdata : (pyNatStr n).data = Nat.digitChar b :: (L.map Nat.digitChar).reverse := by
      rw [pyNatStr_data_of_ne_zero hn, hLb]
      simp
    have hblt : b < 10 := Nat.digits_lt_base (by norm_num) (by rw [hLb]; simp)
    have hbne : b ≠ 0 := by
      have hlast := Nat.getLast_digit_ne_zero 10 hn
      intro h0
      apply hlast
      rw [List.getLast_congr _ _ hLb]
      · simp [h0]
      · simp
    exact ⟨_, _, hdata, digitChar_ne_zero_char b hblt hbne⟩

theorem pyNatStr_chars {n : Nat} : ∀ c ∈ (pyNatStr n).data, ∃ d, d < 10 ∧ c = Nat.digitChar d := by
  intro c hc
  by_cases hn : n = 0
  · subst hn
    rw [pyNatStr_zero] at hc
    simp at hc
    exact ⟨0, by norm_num, by rw [hc]; rfl⟩
  · rw [pyNatStr_data_of_ne_zero hn] at hc
    rw [List.mem_reverse] at hc
    obtain ⟨d, hd, hdc⟩ := List.mem_map.mp hc
    exact ⟨d, Nat.digits_lt_base (by norm_num) hd, hdc.symm⟩

theorem pyNatStr_data_inj {m n : Nat} (h : (pyNatStr m).data = (pyNatStr n).data) : m = n := by
  by_cases hm : m = 0 <;> by_cases hn : n = 0
  · omega
  · exfalso
    rw [hm] at h
    rw [pyNatStr_zero] at h
    obtain ⟨c, cs, hd, hc0⟩ := pyNatStr_head hn
    rw [hd] at h
    simp only [List.cons.injEq] at h
    exact hc0 h.1.symm
  · exfalso
    rw [hn] at h
    rw [pyNatStr_zero] at h
    obtain ⟨c, cs, hd, hc0⟩ := pyNatStr_head hm
    rw [hd] at h
    simp only [List.cons.injEq] at h
    exact hc0 h.1
  · rw [pyNatStr_data_of_ne_zero hm, pyNatStr_data_of_ne_zero hn] at h
    have h2 := List.reverse_injective h
    have h3 := map_digitChar_inj _ _
      (fun d hd => Nat.digits_lt_base (by norm_num) hd)
      (fun d hd => Nat.digits_lt_base (by norm_num) hd) h2
    exact Nat.digits_inj_iff.mp h3

theorem pyNatStr_no_leading_zero {m : Nat} {rest : List Char}
    (h : (pyNatStr m).data = '0' :: rest) : rest = [] ∧ m = 0 := by
  by_cases hm : m = 0
  · subst hm
    rw [pyNatStr_zero] at h
    injection h with _ h2
    exact ⟨h2.symm, rfl⟩
  · obtain ⟨c, cs, hd, hc0⟩ := pyNatStr_head hm
    rw [hd] at h
    injection h with h1 _
    exact absurd h1 hc0

theorem padRepl_inj : ∀ (p q m n : Nat),
    List.replicate p '0' ++ (pyNatStr m).data = List.replicate q '0' ++ (pyNatStr n).data →
    m = n := by
  intro p
  induction p with
  | zero =>
    intro q m n h
    cases q with
    | zero =>
      simp only [List.replicate_zero, List.nil_append] at h
      exact pyNatStr_data_inj h
    | succ q =>
      simp only [List.replicate_zero, List.nil_append, List.replicate_succ,
        List.cons_append] at h
      obtain ⟨hrest, _⟩ := pyNatStr_no_leading_zero h
      exact absurd (List.append_eq_nil.mp hrest).2 (pyNatStr_data_ne_nil n)
  | succ p ih =>
    intro q m n h
    cases q with
    | zero =>
      simp only [List.replicate_zero, List.nil_append, List.replicate_succ,
        List.cons_append] at h
      obtain ⟨hrest, _⟩ := pyNatStr_no_leading_zero h.symm
      exact absurd (List.append_eq_nil.mp hrest).2 (pyNatStr_data_ne_nil m)
    | succ q =>
      simp only [List.replicate_succ, List.cons_append, List.cons.injEq] at h
      exact ih q m n h.2

theorem padded_head_ne_dash (k t : Nat) :
    ∃ c cs, List.replicate k '0' ++ (pyNatStr t).data = c :: cs ∧ c ≠ '-' := by
  cases k with
  | zero =>
    obtain ⟨c, cs, hd⟩ := List.exists_cons_of_ne_nil (pyNatStr_data_ne_nil t)
    obtain ⟨d, hdlt, hdc⟩ := pyNatStr_chars c (by rw [hd]; simp)
    exact ⟨c, cs, by simp [hd], by rw [hdc]; exact digitChar_ne_dash d hdlt⟩
  | succ k =>
    exact ⟨'0', List.replicate k '0' ++ (pyNatStr t).data,
      by simp [List.replicate_succ], by decide⟩

theorem pad3_data_of_neg {a : Int} (ha : a < 0) :
    (pad3 a).data = '-' :: (List.replicate (2 - (pyNatStr a.natAbs).length) '0' ++
      (pyNatStr a.natAbs).data) := by
  unfold pad3
  rw [if_pos ha]
  rfl

theorem pad3_data_of_nonneg {a : Int} (ha : ¬a < 0) :
    (pad3 a).data = List.replicate (3 - (pyNatStr a.toNat).length) '0' ++
      (pyNatStr a.toNat).data := by
  unfold pad3
  rw [if_neg ha]
  rfl

theorem pad3_inj {a b : Int} (h : pad3 a = pad3 b) : a = b := by
  have hd : (pad3 a).data = (pad3 b).data := congrArg String.data h
  by_cases ha : a < 0 <;> by_cases hb : b < 0
  · rw [pad3_data_of_neg ha, pad3_data_of_neg hb] at hd
    injection hd with _ h2
    have := padRepl_inj _ _ _ _ h2
    omega
  · exfalso
    rw [pad3_data_of_neg ha, pad3_data_of_nonneg hb] at hd
    obtain ⟨c, cs, hrepr, hcd⟩ := padded_head_ne_dash (3 - (pyNatStr b.toNat).length) b.toNat
    rw [hrepr] at hd
    injection hd with h1 _
    exact hcd h1.symm
  · exfalso
    rw [pad3_data_of_nonneg ha, pad3_data_of_neg hb] at hd
    obtain ⟨c, cs, hrepr, hcd⟩ := padded_head_ne_dash (3 - (pyNatStr a.toNat).length) a.toNat
    rw [hrepr] at hd
    injection hd with h1 _
    exact hcd h1
  · rw [pad3_data_of_nonneg ha, pad3_data_of_nonneg hb] at hd
    have := padRepl_inj _ _ _ _ hd
    omega

theorem alistGet_set_self {β : Type} (l : List (String × β)) (k : String) (v : β) :
    alistGet (alistSet l k v) k = some v := by
  induction l with
  | nil => simp [alistSet, alistGet]
  | cons p rest ih =>
    obtain ⟨k1, v1⟩ := p
    by_cases hk : k1 = k
    · simp [alistSet, alistGet, hk]
    · simp [alistSet, alistGet, hk, ih]

theorem alistGet_set_ne {β : Type} (l : List (String × β)) (k k2 : String) (v : β)
    (h : k2 ≠ k) : alistGet (alistSet l k v) k2 = alistGet l k2 := by
  induction l with
  | nil => simp [alistSet, alistGet, Ne.symm h]
  | cons p rest ih =>
    obtain ⟨k1, v1⟩ := p
    by_cases hk : k1 = k
    · subst hk
      simp [alistSet, alistGet, Ne.symm h]
    · simp only [alistSet, if_neg hk]
      by_cases hk2 : k1 = k2
      · simp [alistGet, hk2]
      · simp [alistGet, hk2, ih]

theorem alistHas_set_self {β : Type} (l : List (String × β)) (k : String) (v : β) :
    alistHas (alistSet l k v) k = true := by
  simp [alistHas, alistGet_set_self]

theorem alistHas_set_mono {β : Type} (l : List (String × β)) (k k2 : String) (v : β)
    (h : alistHas l k2 = true) : alistHas (alistSet l k v) k2 = true := by
  by_cases hk : k2 = k
  · subst hk
    exact alistHas_set_self l k2 v
  · rw [alistHas, alistGet_set_ne l k k2 v hk]
    exact h

theorem alistGet_append {β : Type} (l m : List (String × β)) (key : String) :
    alistGet (l ++ m) key =
      match alistGet l key with
      | some v => some v
      | none => alistGet m key := by
  induction l with
  | nil => rfl
  | cons p rest ih =>
    obtain ⟨k1, v1⟩ := p
    by_cases hk : k1 = key
    · simp [alistGet, hk]
    · simp [alistGet, hk, ih]

theorem processOneToOne_outFiles_eq (cfg : PdfStratC) (outDir : String)
    (okf : String → Bool) : ∀ (imgs : List String) (fs : List (String × PdfContent)),
    (Img2PdfExecutor.processOneToOne cfg outDir okf imgs fs).outFiles =
      (ImageToPdfConverter.processOneToOne cfg okf imgs fs).outFiles ∧
    (Img2PdfExecutor.processOneToOne cfg outDir okf imgs fs).writes =
      (ImageToPdfConverter.processOneToOne cfg okf imgs fs).writes := by
  intro imgs
  induction imgs with
  | nil => intro fs; exact ⟨rfl, rfl⟩
  | cons img rest ih =>
    intro fs
    simp only [Img2PdfExecutor.processOneToOne, ImageToPdfConverter.processOneToOne]
    by_cases hc : (alistHas fs (pyStem img ++ ".pdf") && !cfg.overwrite_existing) = true
    · simp only [hc, if_true]
      exact ⟨(ih fs).1, (ih fs).2⟩
    · simp only [Bool.not_eq_true] at hc
      simp only [hc, Bool.false_eq_true, if_false]
      by_cases ho : okf img = true
      · simp only [ho, if_true]
        exact ⟨(ih _).1, by simp [(ih _).2]⟩
      · simp only [Bool.not_eq_true] at ho
        simp only [ho, Bool.false_eq_true, if_false]
        exact ⟨(ih _).1, by simp [(ih _).2]⟩

theorem processOneToOne_preserves (cfg : PdfStratC) (okf : String → Bool) :
    ∀ (imgs : List String) (fs : List (String × PdfContent)) (k : String),
    alistHas fs k = true →
    alistHas (ImageToPdfConverter.processOneToOne cfg okf imgs fs).outFiles k = true := by
  intro imgs
  induction imgs with
  | nil => intro fs k h; exact h
  | cons img rest ih =>
    intro fs k h
    simp only [ImageToPdfConverter.processOneToOne]
    by_cases hc : (alistHas fs (pyStem img ++ ".pdf") && !cfg.overwrite_existing) = true
    · simp only [hc, if_true]
      exact ih fs k h
    · simp only [Bool.not_eq_true] at hc
      simp only [hc, Bool.false_eq_true, if_false]
      by_cases ho : okf img = true
      · simp only [ho, if_true]
        exact ih _ k (alistHas_set_mono _ _ _ _ h)
      · simp only [Bool.not_eq_true] at ho
        simp only [ho, Bool.false_eq_true, if_false]
        exact ih _ k (alistHas_set_mono _ _ _ _ h)

theorem processOneToOne_targets (cfg : PdfStratC) (okf : String → Bool) :
    ∀ (imgs : List String) (fs : List (String × PdfContent)), ∀ i ∈ imgs,
    alistHas (ImageToPdfConverter.processOneToOne cfg okf imgs fs).outFiles
      (pyStem i ++ ".pdf") = true := by
  intro imgs
  induction imgs with
  | nil => intro fs i hi; simp at hi
  | cons img rest ih =>
    intro fs i hi
    simp only [ImageToPdfConverter.processOneToOne]
    by_cases hc : (alistHas fs (pyStem img ++ ".pdf") && !cfg.overwrite_existing) = true
    · simp only [hc, if_true]
      rcases List.mem_cons.mp hi with hi | hi
      · subst hi
        exact processOneToOne_preserves cfg okf rest fs _
          (Bool.and_elim_left hc)
      · exact ih fs i hi
    · simp only [Bool.not_eq_true] at hc
      simp only [hc, Bool.false_eq_true, if_false]
      by_cases ho : okf img = true
      · simp only [ho, if_true]
        rcases List.mem_cons.mp hi with hi | hi
        · subst hi
          exact processOneToOne_preserves cfg okf rest _ _ (alistHas_set_self _ _ _)
        · exact ih _ i hi
      · simp only [Bool.not_eq_true] at ho
        simp only [ho, Bool.false_eq_true, if_false]
        rcases List.mem_cons.mp hi with hi | hi
        · subst hi
          exact processOneToOne_preserves cfg okf rest _ _ (alistHas_set_self _ _ _)
        · exact ih _ i hi

theorem processOneToOne_all_skip (cfg : PdfStratC) (okf : String → Bool)
    (how : cfg.overwrite_existing = false) :
    ∀ (imgs : List String) (fs : List (String × PdfContent)),
    (∀ i ∈ imgs, alistHas fs (pyStem i ++ ".pdf") = true) →
    ImageToPdfConverter.processOneToOne cfg okf imgs fs = ⟨fs, [], []⟩ := by
  intro imgs
  induction imgs with
  | nil => intro fs _; rfl
  | cons img rest ih =>
    intro fs h
    have hc : (alistHas fs (pyStem img ++ ".pdf") && !cfg.overwrite_existing) = true := by
      rw [h img (by simp), how]
      rfl
    simp only [ImageToPdfConverter.processOneToOne, hc, if_true]
    exact ih fs (fun i hi => h i (by simp [hi]))

theorem processOneToOneMono_all_skip (cfg : PdfStratC) (outDir : String)
    (okf : String → Bool) (how : cfg.overwrite_existing = false) :
    ∀ (imgs : List String) (fs : List (String × PdfContent)),
    (∀ i ∈ imgs, alistHas fs (pyStem i ++ ".pdf") = true) →
    Img2PdfExecutor.processOneToOne cfg outDir okf imgs fs =
      ⟨fs, imgs.map (fun i => ⟨.info,
        "Skipping " ++ pyJoin outDir (pyStem i ++ ".pdf") ++ " (exists)"⟩), []⟩ := by
  intro imgs
  induction imgs with
  | nil => intro fs _; rfl
  | cons img rest ih =>
    intro fs h
    have hc : (alistHas fs (pyStem img ++ ".pdf") && !cfg.overwrite_existing) = true := by
      rw [h img (by simp), how]
      rfl
    simp only [Img2PdfExecutor.processOneToOne, hc, if_true]
    rw [ih fs (fun i hi => h i (by simp [hi]))]
    simp

theorem pageFileName_pageIndex (cfg : ImgStratC) (stem : String) (idx : Int)
    (h : cfg.page_naming = "page_index") :
    PDFExtractor.pageFileName cfg stem idx = "page_" ++ pad3 idx ++ "." ++ cfg.image_format := by
  unfold PDFExtractor.pageFileName
  rw [h]
  rfl

theorem pageFileName_inj {cfg : ImgStratC} {stem : String}
    (h : cfg.page_naming = "page_index") {a b : Int}
    (he : PDFExtractor.pageFileName cfg stem a = PDFExtractor.pageFileName cfg stem b) :
    a = b := by
  rw [pageFileName_pageIndex cfg stem a h, pageFileName_pageIndex cfg stem b h] at he
  have hd := congrArg String.data he
  simp only [strData_append, List.append_assoc] at hd
  have h1 := List.append_cancel_left hd
  have h2 := List.append_cancel_right h1
  exact pad3_inj (String.ext h2)

theorem savePages_fresh (cfg : ImgStratC) (stem : String) :
    ∀ (idxs : List Nat) (files : List String),
    (∀ i ∈ idxs,
      files.contains (PDFExtractor.pageFileName cfg stem (cfg.start_index + (i : Int))) = false) →
    List.Pairwise (fun (i j : Nat) =>
      PDFExtractor.pageFileName cfg stem (cfg.start_index + (i : Int)) ≠
        PDFExtractor.pageFileName cfg stem (cfg.start_index + (j : Int))) idxs →
    PDFExtractor.savePages cfg stem idxs files =
      ⟨files ++ idxs.map (fun (i : Nat) =>
         PDFExtractor.pageFileName cfg stem (cfg.start_index + (i : Int))),
       idxs.map (fun (i : Nat) => ⟨.info,
         "  Saved " ++ PDFExtractor.pageFileName cfg stem (cfg.start_index + (i : Int))⟩),
       idxs.map (fun (i : Nat) =>
         PDFExtractor.pageFileName cfg stem (cfg.start_index + (i : Int)))⟩ := by
  intro idxs
  induction idxs with
  | nil => intro files _ _; simp [PDFExtractor.savePages]
  | cons i rest ih =>
    intro files hfresh hpw
    have hci := hfresh i (by simp)
    rw [List.pairwise_cons] at hpw
    simp only [PDFExtractor.savePages, hci, Bool.false_and, Bool.false_eq_true, if_false]
    have hrest : ∀ j ∈ rest,
        (files ++ [PDFExtractor.pageFileName cfg stem (cfg.start_index + (i : Int))]).contains
          (PDFExtractor.pageFileName cfg stem (cfg.start_index + (j : Int))) = false := by
      intro j hj
      have h1 : PDFExtractor.pageFileName cfg stem (cfg.start_index + (j : Int)) ∉ files := by
        simpa using hfresh j (by simp [hj])
      have h2 := Ne.symm (hpw.1 j hj)
      simp [h1, h2]
    rw [ih (files ++ [PDFExtractor.pageFileName cfg stem (cfg.start_index + (i : Int))])
      hrest hpw.2]
    simp

/-! ### Claim theorems -/

/-- C1: configuration resolution fails fatally — `ConfigError` in the
loader and exit code 1 with no filesystem effect in `main` — whenever the
document cannot be parsed, the top-level `Settings` section is missing,
null or not a table, or the required `work_mode` key is absent or carries
a value outside `{"img2pdf", "pdf2img"}`; no converter runs and no file or
directory is created. -/
theorem c1_config_fatal (parsed : Option Tbl) (cwd : String) (env : Env)
    (h : parsed = none ∨ ∃ raw, parsed = some raw ∧
      (Tbl.lookup? raw "Settings" = none ∨
       Tbl.lookup? raw "Settings" = some .null ∨
       (∃ v, Tbl.lookup? raw "Settings" = some v ∧ ∀ kvs, v ≠ Toml.table kvs) ∨
       (∃ s, Tbl.lookup? raw "Settings" = some (.table s) ∧
         (Tbl.lookup? s "work_mode" = none ∨
          ∃ wv, Tbl.lookup? s "work_mode" = some wv ∧
            tomlMem wv ["img2pdf", "pdf2img"] = false)))) :
    (∃ e, ConfigLoader.load parsed cwd = .error e) ∧
    appMain parsed cwd env = ⟨1, [], [], env.imgW, env.pdfW⟩ := by
  have hload : ∃ e, ConfigLoader.load parsed cwd = .error e := by
    rcases h with h | ⟨raw, hp, hcase⟩
    · subst h
      exact ⟨_, rfl⟩
    · subst hp
      rcases hcase with hs | hs | ⟨v, hs, hv⟩ | ⟨s, hs, hwm⟩
      · exact ⟨.configError "Missing [Settings] section in config.",
          by simp [ConfigLoader.load, hs]⟩
      · exact ⟨.configError "[Settings] section is explicitly set to null/empty in config.",
          by simp [ConfigLoader.load, hs]⟩
      · cases v with
        | table kvs => exact absurd rfl (hv kvs)
        | null =>
          exact ⟨.configError "[Settings] section is explicitly set to null/empty in config.",
            by simp [ConfigLoader.load, hs]⟩
        | str s2 => exact ⟨.configError "[Settings] must be a table (dictionary).",
            by simp [ConfigLoader.load, hs]⟩
        | int n => exact ⟨.configError "[Settings] must be a table (dictionary).",
            by simp [ConfigLoader.load, hs]⟩
        | bool b => exact ⟨.configError "[Settings] must be a table (dictionary).",
            by simp [ConfigLoader.load, hs]⟩
        | arr xs => exact ⟨.configError "[Settings] must be a table (dictionary).",
            by simp [ConfigLoader.load, hs]⟩
      · rcases hwm with hwm | ⟨wv, hwv, hmem⟩
        · exact ⟨.configError "Missing required config key: 'work_mode'", by
            simp [ConfigLoader.load, hs, ConfigLoader.getRequired, hwm, Bind.bind,
              Except.bind]⟩
        · exact ⟨.configError ("Invalid value for 'work_mode': " ++ pyStr wv ++
              ". Expected one of " ++ pyStrList ["img2pdf", "pdf2img"]), by
            simp [ConfigLoader.load, hs, ConfigLoader.getRequired, hwv, hmem, Bind.bind,
              Except.bind]⟩
  refine ⟨hload, ?_⟩
  obtain ⟨e, he⟩ := hload
  simp [appMain, he]

/-- Witness for C1 at a concrete document whose `Settings` table lacks
`work_mode`. -/
theorem c1_config_fatal_witness :
    (∃ e, ConfigLoader.load (some [("Settings", Toml.table [])]) "/w" = .error e) ∧
    appMain (some [("Settings", Toml.table [])]) "/w"
        ⟨⟨false, [], false, []⟩, ⟨false, [], false, []⟩, 0, true, fun _ => true,
          fun _ => none⟩ =
      ⟨1, [], [], ⟨false, [], false, []⟩, ⟨false, [], false, []⟩⟩ :=
  c1_config_fatal _ _ _
    (Or.inr ⟨_, rfl, Or.inr (Or.inr (Or.inr ⟨[], rfl, Or.inl rfl⟩))⟩)

/-- C2: a raw document with a valid `work_mode` and no optional key
resolves to exactly the documented defaults: work space is the current
working directory, the directory pair is `input`/`output`, the PDF
strategy is many-to-one into `merged.pdf` without overwrite and with auto
grouping disabled (`group_by` none, `max_images_per_pdf` 0), and the image
strategy is one-to-one PNG at 300 dpi in RGB without overwrite, with
page-index naming starting at 1. -/
theorem c2_defaults (wm : String) (cwd : String)
    (h : wm = "img2pdf" ∨ wm = "pdf2img") :
    ∃ logs, ConfigLoader.load (some [("Settings", .table [("work_mode", .str wm)])]) cwd =
      .ok (⟨.str wm,
            ⟨cwd, "input", "output"⟩,
            ⟨.str "many_to_one", .str "merged.pdf", .bool false,
              ⟨.bool false, .str "none", .int 0⟩⟩,
            ⟨.str "one_to_one", ⟨.str "png", .int 300, .str "rgb", .bool false⟩,
              ⟨.str "page_index", .int 1⟩⟩⟩, logs) := by
  rcases h with h | h <;> subst h <;> exact ⟨_, rfl⟩

/-- Witness for C2 at `work_mode = "img2pdf"` and a concrete working
directory. -/
theorem c2_defaults_witness :
    ∃ logs, ConfigLoader.load (some [("Settings", .table [("work_mode", .str "img2pdf")])]) "/w" =
      .ok (⟨.str "img2pdf",
            ⟨"/w", "input", "output"⟩,
            ⟨.str "many_to_one", .str "merged.pdf", .bool false,
              ⟨.bool false, .str "none", .int 0⟩⟩,
            ⟨.str "one_to_one", ⟨.str "png", .int 300, .str "rgb", .bool false⟩,
              ⟨.str "page_index", .int 1⟩⟩⟩, logs) :=
  c2_defaults "img2pdf" "/w" (Or.inl rfl)

/-- C3: an optional key present with a value outside its enumerated
choices resolves to the documented default and emits the
`"[OPT]"`-prefixed warning, which is distinguishable from the generic
warning emitted when the key is absent: the formatter colors the former
blue and the latter yellow. -/
theorem c3_tagged_warning (data data2 : Tbl) (key : String) (dflt val : Toml)
    (choices : List String)
    (hv : Tbl.lookup? data key = some val)
    (hc : choices ≠ [])
    (hm : tomlMem val choices = false)
    (habs : Tbl.lookup? data2 key = none) :
    ConfigLoader.getOptional data key dflt choices =
      (dflt, [⟨.warning, ConfigLoader.invalidMsg key val dflt choices⟩]) ∧
    strStartsWith (ConfigLoader.invalidMsg key val dflt choices) "[OPT]" = true ∧
    ConfigLoader.getOptional data2 key dflt choices =
      (dflt, [⟨.warning, ConfigLoader.missingMsg key dflt⟩]) ∧
    strStartsWith (ConfigLoader.missingMsg key dflt) "[OPT]" = false ∧
    strStartsWith (CustomFormatter.format ⟨.warning, ConfigLoader.invalidMsg key val dflt choices⟩)
      LogColors.BLUE = true ∧
    strStartsWith (CustomFormatter.format ⟨.warning, ConfigLoader.missingMsg key dflt⟩)
      LogColors.BLUE = false ∧
    strStartsWith (CustomFormatter.format ⟨.warning, ConfigLoader.missingMsg key dflt⟩)
      LogColors.YELLOW = true := by
  have hopt : strStartsWith (ConfigLoader.invalidMsg key val dflt choices) "[OPT]" = true := rfl
  have hgen : strStartsWith (ConfigLoader.missingMsg key dflt) "[OPT]" = false := rfl
  refine ⟨?_, hopt, ?_, hgen, ?_, ?_, ?_⟩
  · simp [ConfigLoader.getOptional, hv, hc, hm]
  · simp [ConfigLoader.getOptional, habs]
  · simp only [CustomFormatter.format, hopt, if_true]
    exact strStartsWith_append_self _ _
  · simp only [CustomFormatter.format, hgen, Bool.false_eq_true, if_false]
    rfl
  · simp only [CustomFormatter.format, hgen, Bool.false_eq_true, if_false]
    exact strStartsWith_append_self _ _

/-- Witness for C3 at the `mode` key with the out-of-enum value
`"bogus"`. -/
theorem c3_tagged_warning_witness :
    ConfigLoader.getOptional [("mode", .str "bogus")] "mode" (.str "many_to_one")
        ["many_to_one", "one_to_one", "auto_grouping"] =
      (.str "many_to_one", [⟨.warning, ConfigLoader.invalidMsg "mode" (.str "bogus")
        (.str "many_to_one") ["many_to_one", "one_to_one", "auto_grouping"]⟩]) ∧
    strStartsWith (ConfigLoader.invalidMsg "mode" (.str "bogus") (.str "many_to_one")
      ["many_to_one", "one_to_one", "auto_grouping"]) "[OPT]" = true ∧
    ConfigLoader.getOptional [] "mode" (.str "many_to_one")
        ["many_to_one", "one_to_one", "auto_grouping"] =
      (.str "many_to_one", [⟨.warning, ConfigLoader.missingMsg "mode" (.str "many_to_one")⟩]) ∧
    strStartsWith (ConfigLoader.missingMsg "mode" (.str "many_to_one")) "[OPT]" = false ∧
    strStartsWith (CustomFormatter.format ⟨.warning, ConfigLoader.invalidMsg "mode"
      (.str "bogus") (.str "many_to_one") ["many_to_one", "one_to_one", "auto_grouping"]⟩)
      LogColors.BLUE = true ∧
    strStartsWith (CustomFormatter.format ⟨.warning, ConfigLoader.missingMsg "mode"
      (.str "many_to_one")⟩) LogColors.BLUE = false ∧
    strStartsWith (CustomFormatter.format ⟨.warning, ConfigLoader.missingMsg "mode"
      (.str "many_to_one")⟩) LogColors.YELLOW = true :=
  c3_tagged_warning _ [] _ _ _ _ rfl (by simp) (by rfl) rfl

/-- C9: when the resolved input directory does not exist, each converter's
`run` logs the start line and an error line, returns with the world
unchanged, writes no files and creates no directories (the output
directory included); at process level the exit code stays 0. -/
theorem c9_missing_input_dir :
    (∀ (cfg : PdfStratC) (inDir outDir : String) (ts : Nat) (ok : Bool)
       (okf : String → Bool) (w : ImgWorld), w.inputExists = false →
       ImageToPdfConverter.run cfg inDir outDir ts ok okf w =
         ⟨w, [⟨.info, "Starting ImageToPdfConverter in " ++ inDir⟩,
              ⟨.error, "Input directory does not exist: " ++ inDir⟩], [], []⟩) ∧
    (∀ (cfg : ImgStratC) (inDir outDir : String) (pages : String → Option Nat)
       (w : PdfWorld), w.inputExists = false →
       PDFExtractor.run cfg inDir outDir pages w =
         ⟨w, [⟨.info, "Starting PDF Extractor in " ++ inDir⟩,
              ⟨.error, "Input directory does not exist: " ++ inDir⟩], [], []⟩) ∧
    (∀ (parsed : Option Tbl) (cwd : String) (env : Env) (settings : AppSettings)
       (logs : List LogEntry) (ps : PdfStratC) (ims : ImgStratC),
       ConfigLoader.load parsed cwd = .ok (settings, logs) →
       asTypedPdfStrat settings.pdf_strategy = some ps →
       asTypedImgStrat settings.img_strategy = some ims →
       env.imgW.inputExists = false → env.pdfW.inputExists = false →
       appMain parsed cwd env = ⟨0, [], [], env.imgW, env.pdfW⟩) := by
  have ha : ∀ (cfg : PdfStratC) (inDir outDir : String) (ts : Nat) (ok : Bool)
      (okf : String → Bool) (w : ImgWorld), w.inputExists = false →
      ImageToPdfConverter.run cfg inDir outDir ts ok okf w =
        ⟨w, [⟨.info, "Starting ImageToPdfConverter in " ++ inDir⟩,
             ⟨.error, "Input directory does not exist: " ++ inDir⟩], [], []⟩ := by
    intro cfg inDir outDir ts ok okf w h
    simp [ImageToPdfConverter.run, h]
  have hb : ∀ (cfg : ImgStratC) (inDir outDir : String) (pages : String → Option Nat)
      (w : PdfWorld), w.inputExists = false →
      PDFExtractor.run cfg inDir outDir pages w =
        ⟨w, [⟨.info, "Starting PDF Extractor in " ++ inDir⟩,
             ⟨.error, "Input directory does not exist: " ++ inDir⟩], [], []⟩ := by
    intro cfg inDir outDir pages w h
    simp [PDFExtractor.run, h]
  refine ⟨ha, hb, ?_⟩
  intro parsed cwd env settings logs ps ims hload hps hims h1 h2
  simp only [appMain, hload, hps, hims]
  split
  · rw [ha _ _ _ _ _ _ _ h1]
  · rw [hb _ _ _ _ _ h2]
  · rfl

/-- Witness for C9: a default configuration against worlds whose input
directories are absent. -/
theorem c9_missing_input_dir_witness :
    ImageToPdfConverter.run ⟨"many_to_one", "merged.pdf", false, false, "none", 0⟩
        "in" "out" 0 true (fun _ => true) ⟨false, [⟨"a.jpg", true⟩], false, []⟩ =
      ⟨⟨false, [⟨"a.jpg", true⟩], false, []⟩,
       [⟨.info, "Starting ImageToPdfConverter in in"⟩,
        ⟨.error, "Input directory does not exist: in"⟩], [], []⟩ ∧
    appMain (some [("Settings", .table [("work_mode", .str "img2pdf")])]) "/w"
        ⟨⟨false, [⟨"a.jpg", true⟩], false, []⟩, ⟨false, [], false, []⟩, 0, true,
          fun _ => true, fun _ => none⟩ =
      ⟨0, [], [], ⟨false, [⟨"a.jpg", true⟩], false, []⟩, ⟨false, [], false, []⟩⟩ :=
  ⟨c9_missing_input_dir.1 _ _ _ _ _ _ _ rfl,
   c9_missing_input_dir.2.2 _ _ _ _ _ _ _ rfl rfl rfl rfl rfl⟩

/-- C6: the image-to-PDF converter selects exactly the regular files of
the input directory listing whose extension, lower-cased, is one of
`.jpg/.jpeg/.png/.webp/.bmp`; the selection is sorted ascending by name,
and on the directory `b.png, a.jpg, c.bmp` the many-to-one merge writes a
single PDF whose page order is `a.jpg, b.png, c.bmp`. -/
theorem c6_image_selection :
    (∀ (listing : List FileEntry) (n : String),
       n ∈ listImages listing ↔
         ∃ e ∈ listing, e.name = n ∧ e.isFile = true ∧
           pyLower (pySuffix n) ∈ [".jpg", ".jpeg", ".png", ".webp", ".bmp"]) ∧
    (∀ listing : List FileEntry, (listImages listing).Sorted (· ≤ ·)) ∧
    (ImageToPdfConverter.run ⟨"many_to_one", "merged.pdf", false, false, "none", 0⟩
        "in" "out" 0 true (fun _ => true)
        ⟨true, [⟨"b.png", true⟩, ⟨"a.jpg", true⟩, ⟨"c.bmp", true⟩], true, []⟩).world.outFiles =
      [("merged.pdf", .merged ["a.jpg", "b.png", "c.bmp"])] := by
  refine ⟨?_, ?_, ?_⟩
  · intro listing n
    simp only [listImages, List.mem_insertionSort, List.mem_map, List.mem_filter,
      Bool.and_eq_true, IMG_EXTENSIONS]
    constructor
    · rintro ⟨e, ⟨he, hext, hfile⟩, hname⟩
      subst hname
      exact ⟨e, he, rfl, hfile, by simpa using hext⟩
    · rintro ⟨e, he, hname, hfile, hext⟩
      subst hname
      exact ⟨e, ⟨he, by simpa using hext, hfile⟩, rfl⟩
  · intro listing
    haveI hT : IsTotal String (fun a b => strLe a b = true) :=
      ⟨fun a b => by rw [strLe_iff, strLe_iff]; exact le_total a b⟩
    haveI hR : IsTrans String (fun a b => strLe a b = true) :=
      ⟨fun a b c hab hbc => by
        rw [strLe_iff] at hab hbc ⊢
        exact le_trans hab hbc⟩
    exact (List.sorted_insertionSort _ _).imp (fun hab => (strLe_iff _ _).mp hab)
  · decide

theorem alistSet_append_fresh {β : Type} (l : List (String × β)) (k : String) (v0 v : β)
    (h : alistHas l k = false) : alistSet (l ++ [(k, v0)]) k v = l ++ [(k, v)] := by
  induction l with
  | nil => simp [alistSet]
  | cons p rest ih =>
    obtain ⟨k1, v1⟩ := p
    by_cases hk : k1 = k
    · subst hk
      simp [alistHas, alistGet] at h
    · simp only [alistHas, alistGet, hk, if_false, List.cons_append, alistSet,
        List.append_eq] at h ⊢
      rw [ih h]

theorem alistGet_of_fresh_append {β : Type} (l : List (String × β)) (k : String) (v : β)
    (h : alistHas l k = false) : alistGet (l ++ [(k, v)]) k = some v := by
  rw [alistGet_append]
  simp only [alistHas] at h
  cases hg : alistGet l k with
  | none => simp [alistGet]
  | some w => rw [hg] at h; simp at h

/-- C7: with page-index naming and configured start index `s`, the page at
0-based position `i` of a PDF is saved as `page_<s+i zero-padded to 3
digits>.<format>` inside the newly created subdirectory named after the
PDF's stem; in particular a 3-page `doc.pdf` with start index 5 yields
`page_005`, `page_006`, `page_007` in `outputDir/doc/`. -/
theorem c7_page_index_naming (cfg : ImgStratC) (outDir pdfName : String) (n : Nat)
    (subdirs : List (String × List String))
    (hnm : cfg.page_naming = "page_index")
    (hfresh : alistHas subdirs (pyStem pdfName) = false) :
    (PDFExtractor.processPdf cfg outDir pdfName (some n) subdirs).subdirs =
      subdirs ++ [(pyStem pdfName,
        (List.range n).map (fun (i : Nat) =>
          "page_" ++ pad3 (cfg.start_index + (i : Int)) ++ "." ++ cfg.image_format))] ∧
    (PDFExtractor.processPdf cfg outDir pdfName (some n) subdirs).writes =
      (List.range n).map (fun (i : Nat) =>
        "page_" ++ pad3 (cfg.start_index + (i : Int)) ++ "." ++ cfg.image_format) ∧
    (PDFExtractor.processPdf cfg outDir pdfName (some n) subdirs).dirsCreated =
      [pyJoin outDir (pyStem pdfName)] ∧
    PDFExtractor.processPdf ⟨"one_to_one", "png", 300, "rgb", false, "page_index", 5⟩
        "out" "doc.pdf" (some 3) [] =
      ⟨[("doc", ["page_005.png", "page_006.png", "page_007.png"])],
       [⟨.info, "Extracting PDF: doc.pdf"⟩, ⟨.info, "  Saved page_005.png"⟩,
        ⟨.info, "  Saved page_006.png"⟩, ⟨.info, "  Saved page_007.png"⟩],
       ["page_005.png", "page_006.png", "page_007.png"], ["out/doc"]⟩ := by
  have hsave := savePages_fresh cfg (pyStem pdfName) (List.range n) []
    (by intro i _; rfl)
    (by
      refine (List.pairwise_lt_range n).imp ?_
      intro i j hij he
      have := pageFileName_inj hnm he
      omega)
  have hnames : ∀ i : Nat, PDFExtractor.pageFileName cfg (pyStem pdfName)
      (cfg.start_index + (i : Int)) =
      "page_" ++ pad3 (cfg.start_index + (i : Int)) ++ "." ++ cfg.image_format := by
    intro i
    exact pageFileName_pageIndex cfg (pyStem pdfName) _ hnm
  refine ⟨?_, ?_, ?_, rfl⟩
  · simp only [PDFExtractor.processPdf, hfresh, Bool.not_false, Bool.false_eq_true, if_false,
      alistGet_of_fresh_append subdirs (pyStem pdfName) [] hfresh, Option.getD_some, hsave]
    rw [alistSet_append_fresh subdirs (pyStem pdfName) [] _ hfresh]
    simp [hnames]
  · simp only [PDFExtractor.processPdf, hfresh, Bool.not_false, Bool.false_eq_true, if_false,
      alistGet_of_fresh_append subdirs (pyStem pdfName) [] hfresh, Option.getD_some, hsave]
    simp [hnames]
  · simp [PDFExtractor.processPdf, hfresh]

/-- Witness for C7 by the theorem's own concrete instance. -/
theorem c7_page_index_naming_witness :
    (PDFExtractor.processPdf ⟨"one_to_one", "png", 300, "rgb", false, "page_index", 5⟩
        "out" "doc.pdf" (some 3) []).subdirs =
      [] ++ [("doc",
        (List.range 3).map (fun (i : Nat) => "page_" ++ pad3 ((5 : Int) + (i : Int)) ++ ".png"))] ∧
    (PDFExtractor.processPdf ⟨"one_to_one", "png", 300, "rgb", false, "page_index", 5⟩
        "out" "doc.pdf" (some 3) []).writes =
      (List.range 3).map (fun (i : Nat) => "page_" ++ pad3 ((5 : Int) + (i : Int)) ++ ".png") ∧
    (PDFExtractor.processPdf ⟨"one_to_one", "png", 300, "rgb", false, "page_index", 5⟩
        "out" "doc.pdf" (some 3) []).dirsCreated = [pyJoin "out" (pyStem "doc.pdf")] ∧
    PDFExtractor.processPdf ⟨"one_to_one", "png", 300, "rgb", false, "page_index", 5⟩
        "out" "doc.pdf" (some 3) [] =
      ⟨[("doc", ["page_005.png", "page_006.png", "page_007.png"])],
       [⟨.info, "Extracting PDF: doc.pdf"⟩, ⟨.info, "  Saved page_005.png"⟩,
        ⟨.info, "  Saved page_006.png"⟩, ⟨.info, "  Saved page_007.png"⟩],
       ["page_005.png", "page_006.png", "page_007.png"], ["out/doc"]⟩ :=
  c7_page_index_naming ⟨"one_to_one", "png", 300, "rgb", false, "page_index", 5⟩
    "out" "doc.pdf" 3 [] rfl rfl

/-- C10: per-PDF failure is not atomic in its filesystem effect: the
output subdirectory named after the PDF's stem is created before
rasterization, so when conversion fails the subdirectory still exists
afterwards (empty when it is new), no page file is written, and the error
is logged; the output tree is not left unchanged. -/
theorem c10_failed_pdf_leaves_subdir (cfg : ImgStratC) (outDir pdfName : String)
    (subdirs : List (String × List String)) :
    alistHas (PDFExtractor.processPdf cfg outDir pdfName none subdirs).subdirs
      (pyStem pdfName) = true ∧
    (PDFExtractor.processPdf cfg outDir pdfName none subdirs).writes = [] ∧
    (∃ e ∈ (PDFExtractor.processPdf cfg outDir pdfName none subdirs).logs,
      e.level = .error) ∧
    (alistHas subdirs (pyStem pdfName) = false →
      (PDFExtractor.processPdf cfg outDir pdfName none subdirs).subdirs =
        subdirs ++ [(pyStem pdfName, [])] ∧
      (PDFExtractor.processPdf cfg outDir pdfName none subdirs).dirsCreated =
        [pyJoin outDir (pyStem pdfName)]) := by
  refine ⟨?_, ?_, ?_, ?_⟩
  · by_cases h : alistHas subdirs (pyStem pdfName) = true
    · simp [PDFExtractor.processPdf, h]
    · simp only [Bool.not_eq_true] at h
      simp only [PDFExtractor.processPdf, h, Bool.not_false, Bool.false_eq_true, if_false]
      simp [alistHas, alistGet_of_fresh_append subdirs (pyStem pdfName) [] h]
  · by_cases h : alistHas subdirs (pyStem pdfName) = true <;>
      simp [PDFExtractor.processPdf, h]
  · refine ⟨⟨.error, "Failed to extract PDF " ++ pdfName ++ ": <exception>"⟩, ?_, rfl⟩
    by_cases h : alistHas subdirs (pyStem pdfName) = true <;>
      simp [PDFExtractor.processPdf, h]
  · intro h
    simp [PDFExtractor.processPdf, h]

/-- Witness for C10 at a corrupt `bad.pdf` over an empty output tree. -/
theorem c10_failed_pdf_leaves_subdir_witness :
    alistHas (PDFExtractor.processPdf ⟨"one_to_one", "png", 300, "rgb", false, "page_index", 1⟩
      "out" "bad.pdf" none []).subdirs (pyStem "bad.pdf") = true ∧
    (PDFExtractor.processPdf ⟨"one_to_one", "png", 300, "rgb", false, "page_index", 1⟩
      "out" "bad.pdf" none []).writes = [] ∧
    (∃ e ∈ (PDFExtractor.processPdf ⟨"one_to_one", "png", 300, "rgb", false, "page_index", 1⟩
      "out" "bad.pdf" none []).logs, e.level = .error) ∧
    (alistHas ([] : List (String × List String)) (pyStem "bad.pdf") = false →
      (PDFExtractor.processPdf ⟨"one_to_one", "png", 300, "rgb", false, "page_index", 1⟩
        "out" "bad.pdf" none []).subdirs = [] ++ [(pyStem "bad.pdf", [])] ∧
      (PDFExtractor.processPdf ⟨"one_to_one", "png", 300, "rgb", false, "page_index", 1⟩
        "out" "bad.pdf" none []).dirsCreated = [pyJoin "out" (pyStem "bad.pdf")]) :=
  c10_failed_pdf_leaves_subdir ⟨"one_to_one", "png", 300, "rgb", false, "page_index", 1⟩
    "out" "bad.pdf" []

/-- C8 counterexample: with `auto_grouping` mode (auto grouping enabled)
and an input directory that exists but holds no images, the run is
identical to the `many_to_one` run and no `"[OPT]"`-tagged warning is
emitted at all — the claim's "additionally emitting one tagged warning
for every input image set" fails on the empty image set. -/
theorem c8_counterexample :
    ImageToPdfConverter.run ⟨"auto_grouping", "merged.pdf", false, true, "none", 0⟩
        "in" "out" 0 true (fun _ => true) ⟨true, [], false, []⟩ =
      ImageToPdfConverter.run ⟨"many_to_one", "merged.pdf", false, true, "none", 0⟩
        "in" "out" 0 true (fun _ => true) ⟨true, [], false, []⟩ ∧
    ∀ e ∈ (ImageToPdfConverter.run ⟨"auto_grouping", "merged.pdf", false, true, "none", 0⟩
        "in" "out" 0 true (fun _ => true) ⟨true, [], false, []⟩).logs,
      strStartsWith e.msg "[OPT]" = false :=
  ⟨rfl, by decide⟩

/-- C8 (amended): an `auto_grouping` run always produces exactly the
filesystem effect of the same run with mode `many_to_one` — same world,
same writes, same directories created, regardless of the `AutoGrouping`
sub-settings — and whenever the mode dispatch is reached (the input
directory exists and at least one image is found) its log is the
many-to-one log with one additional `"[OPT]"`-tagged falling-back warning
inserted after the start line; when no image is found (or the input
directory is absent) the logs coincide and no tagged warning is
emitted. -/
theorem c8_auto_grouping_fallback (cfg : PdfStratC) (inDir outDir : String) (ts : Nat)
    (ok : Bool) (okf : String → Bool) (w : ImgWorld)
    (hmode : cfg.mode = "auto_grouping") :
    (ImageToPdfConverter.run cfg inDir outDir ts ok okf w).world =
      (ImageToPdfConverter.run { cfg with mode := "many_to_one" }
        inDir outDir ts ok okf w).world ∧
    (ImageToPdfConverter.run cfg inDir outDir ts ok okf w).writes =
      (ImageToPdfConverter.run { cfg with mode := "many_to_one" }
        inDir outDir ts ok okf w).writes ∧
    (ImageToPdfConverter.run cfg inDir outDir ts ok okf w).dirsCreated =
      (ImageToPdfConverter.run { cfg with mode := "many_to_one" }
        inDir outDir ts ok okf w).dirsCreated ∧
    (w.inputExists = true → listImages w.listing ≠ [] →
      (ImageToPdfConverter.run cfg inDir outDir ts ok okf w).logs =
        (ImageToPdfConverter.run { cfg with mode := "many_to_one" }
          inDir outDir ts ok okf w).logs.take 1 ++
        [⟨.warning,
          "[OPT] Mode 'auto_grouping' not fully implemented. Falling back to many_to_one."⟩] ++
        (ImageToPdfConverter.run { cfg with mode := "many_to_one" }
          inDir outDir ts ok okf w).logs.drop 1) ∧
    (w.inputExists = false ∨ listImages w.listing = [] →
      (ImageToPdfConverter.run cfg inDir outDir ts ok okf w).logs =
        (ImageToPdfConverter.run { cfg with mode := "many_to_one" }
          inDir outDir ts ok okf w).logs) ∧
    strStartsWith
      "[OPT] Mode 'auto_grouping' not fully implemented. Falling back to many_to_one."
      "[OPT]" = true := by
  have hpm : ∀ fs imgs, ImageToPdfConverter.processManyToOne { cfg with mode := "many_to_one" }
      outDir ts ok imgs fs = ImageToPdfConverter.processManyToOne cfg outDir ts ok imgs fs :=
    fun _ _ => rfl
  by_cases hin : w.inputExists = true
  · by_cases himg : listImages w.listing = []
    · refine ⟨?_, ?_, ?_, ?_, ?_, rfl⟩ <;>
        simp [ImageToPdfConverter.run, hmode, hin, himg, List.isEmpty_iff]
    · have hne : (listImages w.listing).isEmpty = false := by
        simp [List.isEmpty_iff, himg]
      refine ⟨?_, ?_, ?_, ?_, ?_, rfl⟩
      · simp [ImageToPdfConverter.run, hmode, hin, hne, hpm]
      · simp [ImageToPdfConverter.run, hmode, hin, hne, hpm]
      · simp [ImageToPdfConverter.run, hmode, hin, hne, hpm]
      · intro _ _
        simp [ImageToPdfConverter.run, hmode, hin, hne, hpm]
      · intro hcon
        rcases hcon with hcon | hcon
        · rw [hin] at hcon; cases hcon
        · exact absurd hcon himg
  · simp only [Bool.not_eq_true] at hin
    refine ⟨?_, ?_, ?_, ?_, ?_, rfl⟩ <;>
      simp [ImageToPdfConverter.run, hin]

/-- Witness for the amended C8 at a one-image world. -/
theorem c8_auto_grouping_fallback_witness :
    (ImageToPdfConverter.run ⟨"auto_grouping", "merged.pdf", false, true, "prefix", 10⟩
        "in" "out" 7 true (fun _ => true) ⟨true, [⟨"a.jpg", true⟩], true, []⟩).world =
      (ImageToPdfConverter.run ⟨"many_to_one", "merged.pdf", false, true, "prefix", 10⟩
        "in" "out" 7 true (fun _ => true) ⟨true, [⟨"a.jpg", true⟩], true, []⟩).world ∧
    (ImageToPdfConverter.run ⟨"auto_grouping", "merged.pdf", false, true, "prefix", 10⟩
        "in" "out" 7 true (fun _ => true) ⟨true, [⟨"a.jpg", true⟩], true, []⟩).writes =
      (ImageToPdfConverter.run ⟨"many_to_one", "merged.pdf", false, true, "prefix", 10⟩
        "in" "out" 7 true (fun _ => true) ⟨true, [⟨"a.jpg", true⟩], true, []⟩).writes ∧
    (ImageToPdfConverter.run ⟨"auto_grouping", "merged.pdf", false, true, "prefix", 10⟩
        "in" "out" 7 true (fun _ => true) ⟨true, [⟨"a.jpg", true⟩], true, []⟩).dirsCreated =
      (ImageToPdfConverter.run ⟨"many_to_one", "merged.pdf", false, true, "prefix", 10⟩
        "in" "out" 7 true (fun _ => true) ⟨true, [⟨"a.jpg", true⟩], true, []⟩).dirsCreated ∧
    ((⟨true, [⟨"a.jpg", true⟩], true, []⟩ : ImgWorld).inputExists = true →
      listImages (⟨true, [⟨"a.jpg", true⟩], true, []⟩ : ImgWorld).listing ≠ [] →
      (ImageToPdfConverter.run ⟨"auto_grouping", "merged.pdf", false, true, "prefix", 10⟩
        "in" "out" 7 true (fun _ => true) ⟨true, [⟨"a.jpg", true⟩], true, []⟩).logs =
        (ImageToPdfConverter.run ⟨"many_to_one", "merged.pdf", false, true, "prefix", 10⟩
          "in" "out" 7 true (fun _ => true) ⟨true, [⟨"a.jpg", true⟩], true, []⟩).logs.take 1 ++
        [⟨.warning,
          "[OPT] Mode 'auto_grouping' not fully implemented. Falling back to many_to_one."⟩] ++
        (ImageToPdfConverter.run ⟨"many_to_one", "merged.pdf", false, true, "prefix", 10⟩
          "in" "out" 7 true (fun _ => true) ⟨true, [⟨"a.jpg", true⟩], true, []⟩).logs.drop 1) ∧
    ((⟨true, [⟨"a.jpg", true⟩], true, []⟩ : ImgWorld).inputExists = false ∨
      listImages (⟨true, [⟨"a.jpg", true⟩], true, []⟩ : ImgWorld).listing = [] →
      (ImageToPdfConverter.run ⟨"auto_grouping", "merged.pdf", false, true, "prefix", 10⟩
        "in" "out" 7 true (fun _ => true) ⟨true, [⟨"a.jpg", true⟩], true, []⟩).logs =
        (ImageToPdfConverter.run ⟨"many_to_one", "merged.pdf", false, true, "prefix", 10⟩
          "in" "out" 7 true (fun _ => true) ⟨true, [⟨"a.jpg", true⟩], true, []⟩).logs) ∧
    strStartsWith
      "[OPT] Mode 'auto_grouping' not fully implemented. Falling back to many_to_one."
      "[OPT]" = true :=
  c8_auto_grouping_fallback ⟨"auto_grouping", "merged.pdf", false, true, "prefix", 10⟩
    "in" "out" 7 true (fun _ => true) ⟨true, [⟨"a.jpg", true⟩], true, []⟩ rfl

/-- C5 counterexample: in the package converter
(`core/image_to_pdf.py`), a one-to-one run over `a.jpg` whose target
`a.pdf` already exists (overwrite off) skips the item — nothing is
written and the target is untouched — but logs nothing besides the start
line: no info-level skip message is emitted, contrary to the claim (only
the monolith `jpg2pdf.py` logs the skip). -/
theorem c5_counterexample :
    (ImageToPdfConverter.run ⟨"one_to_one", "merged.pdf", false, false, "none", 0⟩
        "in" "out" 0 true (fun _ => true)
        ⟨true, [⟨"a.jpg", true⟩], true, [("a.pdf", .single "a.jpg")]⟩).writes = [] ∧
    (ImageToPdfConverter.run ⟨"one_to_one", "merged.pdf", false, false, "none", 0⟩
        "in" "out" 0 true (fun _ => true)
        ⟨true, [⟨"a.jpg", true⟩], true, [("a.pdf", .single "a.jpg")]⟩).world.outFiles =
      [("a.pdf", .single "a.jpg")] ∧
    (ImageToPdfConverter.run ⟨"one_to_one", "merged.pdf", false, false, "none", 0⟩
        "in" "out" 0 true (fun _ => true)
        ⟨true, [⟨"a.jpg", true⟩], true, [("a.pdf", .single "a.jpg")]⟩).logs =
      [⟨.info, "Starting ImageToPdfConverter in in"⟩] :=
  ⟨rfl, rfl, rfl⟩

/-- C5 (amended): in one-to-one image-to-PDF mode with overwrite off, an
item whose target `<stem>.pdf` exists is skipped — never renamed, never
aborting the batch — and the run continues with the rest; the monolithic
executor logs an info-level skip message per skipped item while the
package converter skips silently.  After any first run every target
exists, so a second identical run writes zero new files and leaves the
output directory unchanged (the monolith logging one info-level skip per
item). -/
theorem c5_skip_on_collision (cfg : PdfStratC) (outDir : String) (okf : String → Bool)
    (imgs : List String) (fs : List (String × PdfContent))
    (how : cfg.overwrite_existing = false) :
    ((∀ i ∈ imgs, alistHas fs (pyStem i ++ ".pdf") = true) →
      ImageToPdfConverter.processOneToOne cfg okf imgs fs = ⟨fs, [], []⟩ ∧
      Img2PdfExecutor.processOneToOne cfg outDir okf imgs fs =
        ⟨fs, imgs.map (fun i => ⟨.info,
          "Skipping " ++ pyJoin outDir (pyStem i ++ ".pdf") ++ " (exists)"⟩), []⟩ ∧
      ∀ e ∈ (Img2PdfExecutor.processOneToOne cfg outDir okf imgs fs).logs,
        e.level = .info) ∧
    (∀ i ∈ imgs, alistHas
      (ImageToPdfConverter.processOneToOne cfg okf imgs fs).outFiles
      (pyStem i ++ ".pdf") = true) ∧
    ImageToPdfConverter.processOneToOne cfg okf imgs
      (ImageToPdfConverter.processOneToOne cfg okf imgs fs).outFiles =
      ⟨(ImageToPdfConverter.processOneToOne cfg okf imgs fs).outFiles, [], []⟩ ∧
    (Img2PdfExecutor.processOneToOne cfg outDir okf imgs
      (Img2PdfExecutor.processOneToOne cfg outDir okf imgs fs).outFiles).writes = [] ∧
    ∀ e ∈ (Img2PdfExecutor.processOneToOne cfg outDir okf imgs
      (Img2PdfExecutor.processOneToOne cfg outDir okf imgs fs).outFiles).logs,
      e.level = .info := by
  have htgt := processOneToOne_targets cfg okf imgs fs
  have hmonoeq := processOneToOne_outFiles_eq cfg outDir okf imgs fs
  refine ⟨?_, htgt, ?_, ?_, ?_⟩
  · intro hall
    have h1 := processOneToOne_all_skip cfg okf how imgs fs hall
    have h2 := processOneToOneMono_all_skip cfg outDir okf how imgs fs hall
    refine ⟨h1, h2, ?_⟩
    rw [h2]
    intro e he
    simp only at he
    rcases List.mem_map.mp he with ⟨i, _, rfl⟩
    rfl
  · exact processOneToOne_all_skip cfg okf how imgs _ htgt
  · have htgt2 : ∀ i ∈ imgs, alistHas
        (Img2PdfExecutor.processOneToOne cfg outDir okf imgs fs).outFiles
        (pyStem i ++ ".pdf") = true := by
      intro i hi
      rw [hmonoeq.1]
      exact htgt i hi
    rw [processOneToOneMono_all_skip cfg outDir okf how imgs _ htgt2]
  · have htgt2 : ∀ i ∈ imgs, alistHas
        (Img2PdfExecutor.processOneToOne cfg outDir okf imgs fs).outFiles
        (pyStem i ++ ".pdf") = true := by
      intro i hi
      rw [hmonoeq.1]
      exact htgt i hi
    rw [processOneToOneMono_all_skip cfg outDir okf how imgs _ htgt2]
    intro e he
    simp only at he
    rcases List.mem_map.mp he with ⟨i, _, rfl⟩
    rfl

/-- Witness for the amended C5 at one image with its target present. -/
theorem c5_skip_on_collision_witness :
    ((∀ i ∈ ["a.jpg"], alistHas [("a.pdf", PdfContent.single "a.jpg")]
        (pyStem i ++ ".pdf") = true) →
      ImageToPdfConverter.processOneToOne ⟨"one_to_one", "merged.pdf", false, false, "none", 0⟩
        (fun _ => true) ["a.jpg"] [("a.pdf", PdfContent.single "a.jpg")] =
        ⟨[("a.pdf", PdfContent.single "a.jpg")], [], []⟩ ∧
      Img2PdfExecutor.processOneToOne ⟨"one_to_one", "merged.pdf", false, false, "none", 0⟩
        "out" (fun _ => true) ["a.jpg"] [("a.pdf", PdfContent.single "a.jpg")] =
        ⟨[("a.pdf", PdfContent.single "a.jpg")], ["a.jpg"].map (fun i => ⟨.info,
          "Skipping " ++ pyJoin "out" (pyStem i ++ ".pdf") ++ " (exists)"⟩), []⟩ ∧
      ∀ e ∈ (Img2PdfExecutor.processOneToOne ⟨"one_to_one", "merged.pdf", false, false, "none", 0⟩
        "out" (fun _ => true) ["a.jpg"] [("a.pdf", PdfContent.single "a.jpg")]).logs,
        e.level = .info) ∧
    (∀ i ∈ ["a.jpg"], alistHas
      (ImageToPdfConverter.processOneToOne ⟨"one_to_one", "merged.pdf", false, false, "none", 0⟩
        (fun _ => true) ["a.jpg"] [("a.pdf", PdfContent.single "a.jpg")]).outFiles
      (pyStem i ++ ".pdf") = true) ∧
    ImageToPdfConverter.processOneToOne ⟨"one_to_one", "merged.pdf", false, false, "none", 0⟩
      (fun _ => true) ["a.jpg"]
      (ImageToPdfConverter.processOneToOne ⟨"one_to_one", "merged.pdf", false, false, "none", 0⟩
        (fun _ => true) ["a.jpg"] [("a.pdf", PdfContent.single "a.jpg")]).outFiles =
      ⟨(ImageToPdfConverter.processOneToOne ⟨"one_to_one", "merged.pdf", false, false, "none", 0⟩
        (fun _ => true) ["a.jpg"] [("a.pdf", PdfContent.single "a.jpg")]).outFiles, [], []⟩ ∧
    (Img2PdfExecutor.processOneToOne ⟨"one_to_one", "merged.pdf", false, false, "none", 0⟩
      "out" (fun _ => true) ["a.jpg"]
      (Img2PdfExecutor.processOneToOne ⟨"one_to_one", "merged.pdf", false, false, "none", 0⟩
        "out" (fun _ => true) ["a.jpg"] [("a.pdf", PdfContent.single "a.jpg")]).outFiles).writes =
      [] ∧
    ∀ e ∈ (Img2PdfExecutor.processOneToOne ⟨"one_to_one", "merged.pdf", false, false, "none", 0⟩
      "out" (fun _ => true) ["a.jpg"]
      (Img2PdfExecutor.processOneToOne ⟨"one_to_one", "merged.pdf", false, false, "none", 0⟩
        "out" (fun _ => true) ["a.jpg"] [("a.pdf", PdfContent.single "a.jpg")]).outFiles).logs,
      e.level = .info :=
  c5_skip_on_collision ⟨"one_to_one", "merged.pdf", false, false, "none", 0⟩ "out"
    (fun _ => true) ["a.jpg"] [("a.pdf", PdfContent.single "a.jpg")] rfl

theorem pySplitext_append (p : String) : (pySplitext p).1 ++ (pySplitext p).2 = p := by
  apply String.ext
  rw [strData_append]
  unfold pySplitext
  cases h : lastIdxFrom '.' p.data 0 with
  | none => simp [h]
  | some i =>
    by_cases hany : (p.data.take i).any (fun c => c != '.') = true
    · simp [h, hany, List.take_append_drop]
    · simp only [Bool.not_eq_true] at hany
      simp [h, hany]

theorem data_length_ne {s t : String} (h : s.data.length ≠ t.data.length) : s ≠ t :=
  fun he => h (he ▸ rfl)

theorem m2oRenamedName_ne_outputName (cfg : PdfStratC) (t : Nat) :
    m2oRenamedName cfg t ≠ m2oOutputName cfg := by
  apply data_length_ne
  have h0 : (m2oOutputName cfg).data =
      (pySplitext (m2oOutputName cfg)).1.data ++ (pySplitext (m2oOutputName cfg)).2.data := by
    conv_lhs => rw [← pySplitext_append (m2oOutputName cfg)]
    rfl
  rw [m2oRenamedName, strData_append, strData_append, strData_append, h0]
  simp [List.length_append]
  omega

theorem m2oRenamedName_inj (cfg : PdfStratC) {t t2 : Nat}
    (h : m2oRenamedName cfg t = m2oRenamedName cfg t2) : t = t2 := by
  have hd := congrArg String.data h
  simp only [m2oRenamedName, strData_append] at hd
  have h1 := List.append_cancel_right hd
  have h2 := List.append_cancel_left h1
  exact pyNatStr_data_inj h2

/-- C4: in many-to-one mode with overwrite off and the target
`output_name` already present, the converter writes the merged PDF under
the new name formed by inserting `_<timestamp>` before the extension,
warns about the rename, leaves the pre-existing target untouched and logs
no error; a second run at a later timestamp produces a second,
differently-named file and leaves the first run's file untouched. -/
theorem c4_many_to_one_rename (cfg : PdfStratC) (inDir outDir : String) (ts ts2 : Nat)
    (okf : String → Bool) (w : ImgWorld)
    (hmode : cfg.mode = "many_to_one")
    (how : cfg.overwrite_existing = false)
    (hin : w.inputExists = true)
    (hne : (listImages w.listing).isEmpty = false)
    (hex : alistHas w.outFiles (m2oOutputName cfg) = true)
    (hts : ts ≠ ts2) :
    (ImageToPdfConverter.run cfg inDir outDir ts true okf w).writes =
      [m2oRenamedName cfg ts] ∧
    (⟨.warning, "Output file exists. Renaming to " ++ m2oRenamedName cfg ts⟩ : LogEntry) ∈
      (ImageToPdfConverter.run cfg inDir outDir ts true okf w).logs ∧
    m2oRenamedName cfg ts ≠ m2oOutputName cfg ∧
    alistGet (ImageToPdfConverter.run cfg inDir outDir ts true okf w).world.outFiles
      (m2oOutputName cfg) = alistGet w.outFiles (m2oOutputName cfg) ∧
    (∀ e ∈ (ImageToPdfConverter.run cfg inDir outDir ts true okf w).logs,
      e.level ≠ .error) ∧
    (ImageToPdfConverter.run cfg inDir outDir ts2 true okf
      (ImageToPdfConverter.run cfg inDir outDir ts true okf w).world).writes =
      [m2oRenamedName cfg ts2] ∧
    m2oRenamedName cfg ts2 ≠ m2oRenamedName cfg ts ∧
    alistGet (ImageToPdfConverter.run cfg inDir outDir ts2 true okf
        (ImageToPdfConverter.run cfg inDir outDir ts true okf w).world).world.outFiles
      (m2oRenamedName cfg ts) =
    alistGet (ImageToPdfConverter.run cfg inDir outDir ts true okf w).world.outFiles
      (m2oRenamedName cfg ts) := by
  have hcoll : ∀ (fs : List (String × PdfContent)) (t : Nat) (imgs : List String),
      alistHas fs (m2oOutputName cfg) = true →
      ImageToPdfConverter.processManyToOne cfg outDir t true imgs fs =
        ⟨alistSet fs (m2oRenamedName cfg t) (.merged imgs),
         [⟨.warning, "Output file exists. Renaming to " ++ m2oRenamedName cfg t⟩,
          ⟨.info, "Successfully merged " ++ pyNatStr imgs.length ++ " images -> " ++
            pyJoin outDir (m2oRenamedName cfg t)⟩],
         [m2oRenamedName cfg t]⟩ := by
    intro fs t imgs h
    simp [ImageToPdfConverter.processManyToOne, h, how]
  have hstruct : ∀ (t : Nat) (w2 : ImgWorld), w2.inputExists = true →
      (listImages w2.listing).isEmpty = false →
      ImageToPdfConverter.run cfg inDir outDir t true okf w2 =
        ⟨⟨w2.inputExists, w2.listing, true,
            (ImageToPdfConverter.processManyToOne cfg outDir t true
              (listImages w2.listing) w2.outFiles).outFiles⟩,
         ⟨.info, "Starting ImageToPdfConverter in " ++ inDir⟩ ::
           (ImageToPdfConverter.processManyToOne cfg outDir t true
             (listImages w2.listing) w2.outFiles).logs,
         (ImageToPdfConverter.processManyToOne cfg outDir t true
           (listImages w2.listing) w2.outFiles).writes,
         if w2.outExists then [] else [outDir]⟩ := by
    intro t w2 h1 h2
    simp [ImageToPdfConverter.run, hmode, h1, h2]
  have hr1 := hstruct ts w hin hne
  have hc1 := hcoll w.outFiles ts (listImages w.listing) hex
  have hneq1 := m2oRenamedName_ne_outputName cfg ts
  have hneq2 := m2oRenamedName_ne_outputName cfg ts2
  have hneqtt : m2oRenamedName cfg ts2 ≠ m2oRenamedName cfg ts :=
    fun he => hts (m2oRenamedName_inj cfg he).symm
  have hex1 : alistHas (ImageToPdfConverter.run cfg inDir outDir ts true okf w).world.outFiles
      (m2oOutputName cfg) = true := by
    rw [hr1]
    simp only [hc1]
    exact alistHas_set_mono _ _ _ _ hex
  have hr2 := hstruct ts2 (ImageToPdfConverter.run cfg inDir outDir ts true okf w).world
    (by rw [hr1]; exact hin) (by rw [hr1]; exact hne)
  have hc2 := hcoll (ImageToPdfConverter.run cfg inDir outDir ts true okf w).world.outFiles ts2
    (listImages (ImageToPdfConverter.run cfg inDir outDir ts true okf w).world.listing) hex1
  refine ⟨?_, ?_, hneq1, ?_, ?_, ?_, hneqtt, ?_⟩
  · rw [hr1]
    simp [hc1]
  · rw [hr1]
    simp [hc1]
  · rw [hr1]
    simp only [hc1]
    exact alistGet_set_ne _ _ _ _ (Ne.symm hneq1)
  · rw [hr1]
    simp only [hc1]
    intro e he
    rcases List.mem_cons.mp he with rfl | he2
    · simp
    · rcases List.mem_cons.mp he2 with rfl | he3
      · simp
      · rcases List.mem_cons.mp he3 with rfl | he4
        · simp
        · simp at he4
  · rw [hr2]
    simp [hc2]
  · rw [hr2]
    simp only [hc2]
    exact alistGet_set_ne _ _ _ _ hneqtt.symm

/-- Witness for C4: colliding `merged.pdf` with timestamps 1 and 2. -/
theorem c4_many_to_one_rename_witness :
    (ImageToPdfConverter.run ⟨"many_to_one", "merged.pdf", false, false, "none", 0⟩
      "in" "out" 1 true (fun _ => true)
      ⟨true, [⟨"a.jpg", true⟩], true, [("merged.pdf", PdfContent.emptyFile)]⟩).writes =
      [m2oRenamedName ⟨"many_to_one", "merged.pdf", false, false, "none", 0⟩ 1] ∧
    (⟨.warning, "Output file exists. Renaming to " ++
      m2oRenamedName ⟨"many_to_one", "merged.pdf", false, false, "none", 0⟩ 1⟩ : LogEntry) ∈
      (ImageToPdfConverter.run ⟨"many_to_one", "merged.pdf", false, false, "none", 0⟩
        "in" "out" 1 true (fun _ => true)
        ⟨true, [⟨"a.jpg", true⟩], true, [("merged.pdf", PdfContent.emptyFile)]⟩).logs ∧
    m2oRenamedName ⟨"many_to_one", "merged.pdf", false, false, "none", 0⟩ 1 ≠
      m2oOutputName ⟨"many_to_one", "merged.pdf", false, false, "none", 0⟩ ∧
    alistGet (ImageToPdfConverter.run ⟨"many_to_one", "merged.pdf", false, false, "none", 0⟩
        "in" "out" 1 true (fun _ => true)
        ⟨true, [⟨"a.jpg", true⟩], true,
          [("merged.pdf", PdfContent.emptyFile)]⟩).world.outFiles
      (m2oOutputName ⟨"many_to_one", "merged.pdf", false, false, "none", 0⟩) =
      alistGet [("merged.pdf", PdfContent.emptyFile)]
        (m2oOutputName ⟨"many_to_one", "merged.pdf", false, false, "none", 0⟩) ∧
    (∀ e ∈ (ImageToPdfConverter.run ⟨"many_to_one", "merged.pdf", false, false, "none", 0⟩
        "in" "out" 1 true (fun _ => true)
        ⟨true, [⟨"a.jpg", true⟩], true, [("merged.pdf", PdfContent.emptyFile)]⟩).logs,
      e.level ≠ .error) ∧
    (ImageToPdfConverter.run ⟨"many_to_one", "merged.pdf", false, false, "none", 0⟩
      "in" "out" 2 true (fun _ => true)
      (ImageToPdfConverter.run ⟨"many_to_one", "merged.pdf", false, false, "none", 0⟩
        "in" "out" 1 true (fun _ => true)
        ⟨true, [⟨"a.jpg", true⟩], true,
          [("merged.pdf", PdfContent.emptyFile)]⟩).world).writes =
      [m2oRenamedName ⟨"many_to_one", "merged.pdf", false, false, "none", 0⟩ 2] ∧
    m2oRenamedName ⟨"many_to_one", "merged.pdf", false, false, "none", 0⟩ 2 ≠
      m2oRenamedName ⟨"many_to_one", "merged.pdf", false, false, "none", 0⟩ 1 ∧
    alistGet (ImageToPdfConverter.run ⟨"many_to_one", "merged.pdf", false, false, "none", 0⟩
        "in" "out" 2 true (fun _ => true)
        (ImageToPdfConverter.run ⟨"many_to_one", "merged.pdf", false, false, "none", 0⟩
          "in" "out" 1 true (fun _ => true)
          ⟨true, [⟨"a.jpg", true⟩], true,
            [("merged.pdf", PdfContent.emptyFile)]⟩).world).world.outFiles
      (m2oRenamedName ⟨"many_to_one", "merged.pdf", false, false, "none", 0⟩ 1) =
      alistGet (ImageToPdfConverter.run ⟨"many_to_one", "merged.pdf", false, false, "none", 0⟩
        "in" "out" 1 true (fun _ => true)
        ⟨true, [⟨"a.jpg", true⟩], true,
          [("merged.pdf", PdfContent.emptyFile)]⟩).world.outFiles
      (m2oRenamedName ⟨"many_to_one", "merged.pdf", false, false, "none", 0⟩ 1) :=
  c4_many_to_one_rename ⟨"many_to_one", "merged.pdf", false, false, "none", 0⟩
    "in" "out" 1 2 (fun _ => true)
    ⟨true, [⟨"a.jpg", true⟩], true, [("merged.pdf", PdfContent.emptyFile)]⟩
    rfl rfl rfl (by decide) (by decide) (by decide)
